import Mathlib

/-!
Verification development for the context-aware test generator
(`backend/context_aware_generator.py`).

The Python module is shallowly embedded below.  Python strings are Lean
`String`s (lists of unicode scalar values); the Python string methods used by
the module (`split`, `strip`, `replace`, `startswith`, `in`, `lower`,
`title`, `join`, slicing) are embedded as executable Lean functions over
`String.data`, restricted to their ASCII behaviour where Python is
unicode-aware (`isalnum`, `lower`); for the feature-name normalization,
whose behaviour beyond ASCII is load-bearing, Unicode-aware variants
(`pyIsAlnumU`, `pyLowerCharU`) additionally model the non-ASCII characters
exercised by the development (U+0130 and its lowering to `i` + U+0307).
Python dicts holding the generated
files are embedded as insertion-ordered association lists with in-place
update, matching dict assignment semantics.  Outbound LLM calls are
abstracted as an explicit outcome parameter, since the module treats the
call result as an opaque string.
-/

/-- Embedding of Python `str.isalnum()` restricted to ASCII letters and
digits.  This is the ASCII restriction of the unicode-aware Python method,
used where only ASCII behaviour is at stake; `pyIsAlnumU` below extends it
with the non-ASCII characters this development exercises. -/
def pyIsAlnum (c : Char) : Bool :=
  ('0' ≤ c && c ≤ '9') || ('A' ≤ c && c ≤ 'Z') || ('a' ≤ c && c ≤ 'z')

/-- Embedding of Python `str.lower()` on a single character, restricted to
ASCII: the basic-latin upper-case letters are shifted by 32, everything else
is unchanged.  `pyLowerCharU` below is the unicode-aware extension used for
the normalization claims. -/
def pyToLower (c : Char) : Char :=
  if 'A' ≤ c && c ≤ 'Z' then Char.ofNat (c.toNat + 32) else c

/-- Embedding of Python `str.upper()` on a single character, ASCII only. -/
def pyToUpper (c : Char) : Char :=
  if 'a' ≤ c && c ≤ 'z' then Char.ofNat (c.toNat - 32) else c

/-- A character is cased (for the purposes of `str.title()`), ASCII only. -/
def pyIsCased (c : Char) : Bool :=
  ('A' ≤ c && c ≤ 'Z') || ('a' ≤ c && c ≤ 'z')

/-- Embedding of Python `str.lower()`. -/
def pyLower (s : String) : String :=
  String.mk (s.data.map pyToLower)

/-- `str.title()` over a character list: a cased character that follows a
cased character is lowered, a cased character that follows an uncased
character (or starts the string) is uppercased, uncased characters pass
through.  `prevCased` records whether the previous character was cased. -/
def pyTitleData : List Char → Bool → List Char
  | [], _ => []
  | c :: rest, prevCased =>
    if pyIsCased c then
      (if prevCased then pyToLower c else pyToUpper c) :: pyTitleData rest true
    else
      c :: pyTitleData rest false

/-- Embedding of Python `str.title()`, ASCII only. -/
def pyTitle (s : String) : String :=
  String.mk (pyTitleData s.data false)

/-- Splitting a character list at every occurrence of a separator character;
`Python str.split(sep)` semantics: the empty input yields `[[]]`, trailing
separators yield a trailing empty piece. -/
def splitOnCh (sep : Char) : List Char → List (List Char)
  | [] => [[]]
  | c :: rest =>
    if c == sep then
      [] :: splitOnCh sep rest
    else
      match splitOnCh sep rest with
      | piece :: pieces => (c :: piece) :: pieces
      | [] => [[c]]

/-- Embedding of Python `content.split(chr)` for a one-character separator. -/
def pySplitChar (s : String) (sep : Char) : List String :=
  (splitOnCh sep s.data).map String.mk

/-- Embedding of Python `content.split('\n')`. -/
def pySplitNl (s : String) : List String :=
  pySplitChar s '\n'

/-- Embedding of Python `sep.join(pieces)`. -/
def pyJoin (sep : String) : List String → String
  | [] => ""
  | [l] => l
  | l :: rest => l ++ sep ++ pyJoin sep rest

/-- Embedding of Python `'\n'.join(pieces)`. -/
def joinNl (ls : List String) : String :=
  pyJoin "\n" ls

/-- Substring test on character lists (Python `pat in s`). -/
def subIn (pat : List Char) : List Char → Bool
  | [] => pat.isEmpty
  | l@(_ :: tl) => pat.isPrefixOf l || subIn pat tl

/-- Embedding of the Python membership test `pat in s` for strings. -/
def strContainsSub (s pat : String) : Bool :=
  subIn pat.data s.data

/-- Embedding of Python `s.startswith(pre)`. -/
def pyStartsWith (s pre : String) : Bool :=
  pre.data.isPrefixOf s.data

/-- Embedding of Python `ch in s` for a single character. -/
def pyHasChar (s : String) (c : Char) : Bool :=
  s.data.contains c

/-- Strip trailing whitespace from a character list (Python `str.rstrip()`). -/
def rstripData (l : List Char) : List Char :=
  (l.reverse.dropWhile Char.isWhitespace).reverse

/-- Strip leading and trailing whitespace (Python `str.strip()`). -/
def stripData (l : List Char) : List Char :=
  rstripData (l.dropWhile Char.isWhitespace)

/-- Embedding of Python `s.strip()`. -/
def pyStrip (s : String) : String :=
  String.mk (stripData s.data)

/-- Removal of every occurrence of the three-backtick fence from a character
list, scanning left to right without overlap: the embedding of
`line.replace('```', '')` as used by the response parser. -/
def replaceTicksData : List Char → List Char
  | '`' :: '`' :: '`' :: rest => replaceTicksData rest
  | c :: rest => c :: replaceTicksData rest
  | [] => []

/-- Embedding of `line.replace('```', '')`. -/
def replaceTicks (s : String) : String :=
  String.mk (replaceTicksData s.data)

/-- Everything after the first colon of a character list; the embedding of
Python `s.split(':', 1)[1]` (meaningful only when a colon is present, which
is how the response parser guards the call). -/
def dropToColonData : List Char → List Char
  | [] => []
  | ':' :: rest => rest
  | _ :: rest => dropToColonData rest

/-- Embedding of `s.split(':', 1)[1]`. -/
def dropToColon (s : String) : String :=
  String.mk (dropToColonData s.data)

/-- Truthiness of `Optional[str]` in Python: `None` and the empty string are
falsy. -/
def optStrTruthy : Option String → Bool
  | none => false
  | some s => !s.isEmpty

/-- One extracted context record as far as the generator consults it: the
generator only ever reads `extracted["url"]` and `extracted["title"]`
(`context_aware_generator.py`, lines 379-383, 1138-1143, 1375-1379).  Absent
dict keys are `none`. -/
structure SourceExtracted where
  url : Option String := none
  title : Option String := none
deriving DecidableEq, Repr

/-- One entry of `context["context_sources"]`: a dict with a `type` tag and
the cached extraction result. -/
structure ContextSource where
  type : Option String := none
  extracted : Option SourceExtracted := none
deriving DecidableEq, Repr

/-- The aggregated context envelope assembled by the caller, restricted to
the fields the generator reads; `project_context` is carried as string
key/value pairs (it is only ever serialized back to JSON). -/
structure AggregatedContext where
  project_context : List (String × String) := []
  context_sources : List ContextSource := []
deriving DecidableEq, Repr

/-- The generation configuration (spec section 3).  `temperature` (a float
only forwarded to the LLM call, which is abstracted here) is not modelled. -/
structure GenerationConfig where
  llm_provider : Option String := none
  model : Option String := none
  max_tokens : Option Nat := none
deriving DecidableEq, Repr

/-- `source.get("extracted", {}).get("url")`. -/
def sourceUrl (s : ContextSource) : Option String :=
  s.extracted.bind (fun e => e.url)

/-- `source.get("extracted", {}).get("title", "the application")` — only
consulted once the url is known to be truthy. -/
def sourceTitle (s : ContextSource) : String :=
  ((s.extracted.getD {}).title).getD "the application"

/-- The first context source whose `type` is `"url"` and whose extracted url
is truthy: the loop `for source in context["context_sources"]: if
source.get("type") == "url" and source.get("extracted", {}).get("url"): ...
break` that appears verbatim in `_generate_mock_content`,
`_get_default_feature_file` and `_get_default_config`. -/
def firstUrlSource : List ContextSource → Option ContextSource
  | [] => none
  | s :: rest =>
    if s.type == some "url" && optStrTruthy (sourceUrl s) then some s
    else firstUrlSource rest

/-- The base url resolved by that loop, with the placeholder default. -/
def resolveBaseUrl (context : AggregatedContext) : String :=
  match firstUrlSource context.context_sources with
  | some s => (sourceUrl s).getD ""
  | none => "https://example.com"

/-- The page title resolved by the loop in `_get_default_feature_file`. -/
def resolvePageTitle (context : AggregatedContext) : String :=
  match firstUrlSource context.context_sources with
  | some s => sourceTitle s
  | none => "the application"

/-- Insertion-ordered dict assignment `files[k] = v`: update in place when
the key exists, append otherwise. -/
def dictInsert : List (String × String) → String → String → List (String × String)
  | [], k, v => [(k, v)]
  | (k', v') :: rest, k, v =>
    if k' == k then (k, v) :: rest else (k', v') :: dictInsert rest k v

/-- Folding a list of assignments into a dict. -/
def dictInsertMany (fs : List (String × String)) (es : List (String × String)) :
    List (String × String) :=
  es.foldl (fun acc e => dictInsert acc e.1 e.2) fs

/-- The mutable state of the line scan in `_parse_generated_content`:
the files collected so far, the path of the currently open file block
(`None` when no block is open), and the content lines accumulated for it. -/
structure ParseState where
  files : List (String × String)
  current_file : Option String
  current_content : List String
deriving DecidableEq, Repr

/-- Is a line a file marker: `line.startswith('```') and ':' in line`. -/
def isFileMarker (line : String) : Bool :=
  pyStartsWith line "```" && pyHasChar line ':'

/-- The path taken from a marker line: `line.replace('```', '').strip()`,
then `split(':', 1)[1].strip()` when a colon remains. -/
def markerPath (line : String) : String :=
  let file_path := pyStrip (replaceTicks line)
  if pyHasChar file_path ':' then pyStrip (dropToColon file_path) else file_path

/-- One iteration of the `for line in lines` loop of
`_parse_generated_content` (lines 741-769 of the source). -/
def parseStep (st : ParseState) (line : String) : ParseState :=
  if isFileMarker line then
    let files' :=
      if optStrTruthy st.current_file && !st.current_content.isEmpty then
        dictInsert st.files (st.current_file.getD "") (joinNl st.current_content)
      else st.files
    ⟨files', some (markerPath line), []⟩
  else if pyStartsWith line "```" && !optStrTruthy st.current_file then
    st
  else if pyStartsWith line "```" && optStrTruthy st.current_file then
    let files' :=
      if !st.current_content.isEmpty then
        dictInsert st.files (st.current_file.getD "") (joinNl st.current_content)
      else st.files
    ⟨files', none, []⟩
  else if optStrTruthy st.current_file then
    ⟨st.files, st.current_file, st.current_content ++ [line]⟩
  else st

/-- The scan phase of `_parse_generated_content`: fold the loop body over
`content.split('\n')` and then save the last open file exactly when both the
path and the accumulated content are truthy (lines 771-773). -/
def scanFiles (content : String) : List (String × String) :=
  let st := (pySplitNl content).foldl parseStep ⟨[], none, []⟩
  if optStrTruthy st.current_file && !st.current_content.isEmpty then
    dictInsert st.files (st.current_file.getD "") (joinNl st.current_content)
  else st.files

/-- Embedding of Python `s.replace(old, new)` for one-character patterns. -/
def pyReplaceChar (s : String) (old new : Char) : String :=
  String.mk (s.data.map (fun c => if c == old then new else c))

/-- Embedding of Python `s.replace(old, '')` for a one-character pattern. -/
def pyEraseChar (s : String) (old : Char) : String :=
  String.mk (s.data.filter (fun c => !(c == old)))

/-- The feature-name normalization shared by `_generate_mock_content` (lines
374-375) and `_create_default_test_structure` (lines 785-786):
`"".join(c for c in feature_name if c.isalnum() or c in (' ', '-', '_'))
.rstrip()`, then `.replace(' ', '_').lower()`. -/
def normalizeFeatureName (feature_name : String) : String :=
  let kept := feature_name.data.filter
    (fun c => pyIsAlnum c || c == ' ' || c == '-' || c == '_')
  let stripped := rstripData kept
  String.mk ((stripped.map (fun c => if c == ' ' then '_' else c)).map pyToLower)

/-- Embedding of Python `str.isalnum()` on the alphabet this development
exercises: the ASCII letters and digits of `pyIsAlnum`, plus U+0130 (LATIN
CAPITAL LETTER I WITH DOT ABOVE, category Lu), which Python counts as
alphanumeric.  U+0307 (COMBINING DOT ABOVE, category Mn) and the remaining
modeled characters are not alphanumeric in Python. -/
def pyIsAlnumU (c : Char) : Bool :=
  pyIsAlnum c || c.toNat == 304

/-- Embedding of Python `str.lower()` as the character-to-string map it
really is: an ASCII capital is shifted by 32, U+0130 lowers to the
two-character sequence `i` followed by U+0307 (the special case of the
Unicode lowering table that makes `lower` length-increasing), and every
other modeled character maps to itself. -/
def pyLowerCharU (c : Char) : List Char :=
  if 'A' ≤ c && c ≤ 'Z' then [Char.ofNat (c.toNat + 32)]
  else if c.toNat == 304 then [Char.ofNat 105, Char.ofNat 775]
  else [c]

/-- The feature-name normalization of lines 785-786 with the unicode-aware
`isalnum`/`lower` (`pyIsAlnumU`, `pyLowerCharU`) in place of their ASCII
restrictions: filter, trim trailing whitespace, replace spaces with
underscores, then lowercase, where the final `.lower()` concatenates the
per-character lowerings. -/
def normalizeFeatureNameU (feature_name : String) : String :=
  String.mk (((rstripData (feature_name.data.filter
    (fun c => pyIsAlnumU c || c == ' ' || c == '-' || c == '_'))).map
    (fun c => if c == ' ' then '_' else c)).flatMap pyLowerCharU)

/-- The search term carved out of the feature name (lines 922-924 and
1162-1164): drop the stop words from the underscore-separated words, join
with spaces, and fall back to `"items"` when the result is falsy. -/
def searchTermOf (feature_name : String) : String :=
  let words := (pySplitChar feature_name '_').filter
    (fun w => !(["search", "for", "a", "an", "the"].contains (pyLower w)))
  let st := pyJoin " " words
  if st.isEmpty then "items" else st

/-- A run of `n` spaces. -/
def spaces (n : Nat) : String :=
  String.mk (List.replicate n ' ')

/-- Lower-case hexadecimal digit, as printed by `json.dumps`. -/
def hexDigit (n : Nat) : Char :=
  if n < 10 then Char.ofNat (48 + n) else Char.ofNat (87 + n)

/-- A `\uXXXX` escape for a code unit below `0x10000`. -/
def uEscape4 (n : Nat) : List Char :=
  ['\\', 'u', hexDigit (n / 4096 % 16), hexDigit (n / 256 % 16),
   hexDigit (n / 16 % 16), hexDigit (n % 16)]

/-- The escape sequence `json.dumps` (with its default `ensure_ascii`)
produces for one character. -/
def jsonEscapeChar (c : Char) : List Char :=
  if c == '"' then ['\\', '"']
  else if c == '\\' then ['\\', '\\']
  else if c == '\n' then ['\\', 'n']
  else if c == '\t' then ['\\', 't']
  else if c == '\r' then ['\\', 'r']
  else if c.toNat == 8 then ['\\', 'b']
  else if c.toNat == 12 then ['\\', 'f']
  else if c.toNat < 32 then uEscape4 c.toNat
  else if c.toNat < 127 then [c]
  else if c.toNat < 65536 then uEscape4 c.toNat
  else uEscape4 (55296 + (c.toNat - 65536) / 1024) ++
       uEscape4 (56320 + (c.toNat - 65536) % 1024)

/-- A JSON string literal as printed by `json.dumps`. -/
def jsonStr (s : String) : String :=
  "\"" ++ String.mk ((s.data.map jsonEscapeChar).flatten) ++ "\""

/-- Append a suffix to the last line of a block. -/
def appendToLast (suf : String) : List String → List String
  | [] => []
  | [l] => [l ++ suf]
  | l :: rest => l :: appendToLast suf rest

/-- Join rendered entry blocks with the separating commas `json.dumps`
prints at the end of every entry but the last. -/
def commaChunks : List (List String) → List String
  | [] => []
  | [c] => c
  | c :: rest => appendToLast "," c ++ commaChunks rest

/-- Prefix the first line of a block (used to put a value block behind its
key, and to indent the first line of a list or dict entry). -/
def chunkEntry (pre : String) : List String → List String
  | [] => [pre]
  | l :: rest => (pre ++ l) :: rest

/-- Render a dict whose entries are already rendered blocks, `indent=2`
style: entries are indented two past `ind`, the closing brace sits at
`ind`.  The first line carries no indent (it continues the enclosing
line). -/
def jsonDictBlock (ind : Nat) (chunks : List (List String)) : List String :=
  match chunks with
  | [] => ["\x7b\x7d"]
  | cs => "\x7b" :: commaChunks (cs.map (chunkEntry (spaces (ind + 2)))) ++
      [spaces ind ++ "\x7d"]

/-- Render a list of rendered blocks, `indent=2` style. -/
def jsonListBlock (ind : Nat) (chunks : List (List String)) : List String :=
  match chunks with
  | [] => ["[]"]
  | cs => "[" :: commaChunks (cs.map (chunkEntry (spaces (ind + 2)))) ++
      [spaces ind ++ "]"]

/-- The `json.dumps(..., indent=2)` rendering of one `extracted` record
(restricted to the modelled fields; absent fields are absent keys). -/
def sourceExtractedChunk (ind : Nat) (e : SourceExtracted) : List String :=
  jsonDictBlock ind
    ((match e.url with
      | some u => [["\"url\": " ++ jsonStr u]]
      | none => []) ++
     (match e.title with
      | some t => [["\"title\": " ++ jsonStr t]]
      | none => []))

/-- The `json.dumps(..., indent=2)` rendering of one context source. -/
def contextSourceChunk (ind : Nat) (s : ContextSource) : List String :=
  jsonDictBlock ind
    ((match s.type with
      | some t => [["\"type\": " ++ jsonStr t]]
      | none => []) ++
     (match s.extracted with
      | some e => [chunkEntry "\"extracted\": " (sourceExtractedChunk (ind + 2) e)]
      | none => []))

/-- The `json.dumps(context, indent=2)` rendering used at the tail of the
mock content, as a list of output lines. -/
def ctxJsonLines (context : AggregatedContext) : List String :=
  jsonDictBlock 0
    [chunkEntry "\"project_context\": "
       (jsonDictBlock 2 (context.project_context.map
          (fun kv => [jsonStr kv.1 ++ ": " ++ jsonStr kv.2]))),
     chunkEntry "\"context_sources\": "
       (jsonListBlock 2 (context.context_sources.map (contextSourceChunk 4)))]

/-- The `json.dumps(config, indent=2)` rendering used at the tail of the
mock content, as a list of output lines. -/
def cfgJsonLines (config : GenerationConfig) : List String :=
  jsonDictBlock 0
    ((match config.llm_provider with
      | some p => [["\"llm_provider\": " ++ jsonStr p]]
      | none => []) ++
     (match config.model with
      | some m => [["\"model\": " ++ jsonStr m]]
      | none => []) ++
     (match config.max_tokens with
      | some n => [["\"max_tokens\": " ++ toString n]]
      | none => []))

/-- The underscore character (used by the `replace` calls below). -/
def uscore : Char := Char.ofNat 95

/-- The space character. -/
def blankc : Char := Char.ofNat 32

/-- `_get_default_pom` (source lines 800-861): the fixed build descriptor. -/
def _get_default_pom : String :=
"<?xml version=\"1.0\" encoding=\"UTF-8\"?>\n" ++
"<project xmlns=\"http://maven.apache.org/POM/4.0.0\"\n" ++
"         xmlns:xsi=\"http://www.w3.org/2001/XMLSchema-instance\"\n" ++
"         xsi:schemaLocation=\"http://maven.apache.org/POM/4.0.0 \n" ++
"         http://maven.apache.org/xsd/maven-4.0.0.xsd\">\n" ++
"    <modelVersion>4.0.0</modelVersion>\n" ++
"    \n" ++
"    <groupId>com.testgen</groupId>\n" ++
"    <artifactId>selenium-cucumber-tests</artifactId>\n" ++
"    <version>1.0.0</version>\n" ++
"    <packaging>jar</packaging>\n" ++
"    \n" ++
"    <properties>\n" ++
"        <maven.compiler.source>11</maven.compiler.source>\n" ++
"        <maven.compiler.target>11</maven.compiler.target>\n" ++
"        <project.build.sourceEncoding>UTF-8</project.build.sourceEncoding>\n" ++
"    </properties>\n" ++
"    \n" ++
"    <dependencies>\n" ++
"        <dependency>\n" ++
"            <groupId>io.cucumber</groupId>\n" ++
"            <artifactId>cucumber-java</artifactId>\n" ++
"            <version>7.14.0</version>\n" ++
"        </dependency>\n" ++
"        <dependency>\n" ++
"            <groupId>io.cucumber</groupId>\n" ++
"            <artifactId>cucumber-junit</artifactId>\n" ++
"            <version>7.14.0</version>\n" ++
"        </dependency>\n" ++
"        <dependency>\n" ++
"            <groupId>org.seleniumhq.selenium</groupId>\n" ++
"            <artifactId>selenium-java</artifactId>\n" ++
"            <version>4.15.0</version>\n" ++
"        </dependency>\n" ++
"        <dependency>\n" ++
"            <groupId>io.github.bonigarcia</groupId>\n" ++
"            <artifactId>webdrivermanager</artifactId>\n" ++
"            <version>5.5.3</version>\n" ++
"        </dependency>\n" ++
"        <dependency>\n" ++
"            <groupId>org.junit.jupiter</groupId>\n" ++
"            <artifactId>junit-jupiter</artifactId>\n" ++
"            <version>5.10.0</version>\n" ++
"        </dependency>\n" ++
"    </dependencies>\n" ++
"    \n" ++
"    <build>\n" ++
"        <plugins>\n" ++
"            <plugin>\n" ++
"                <groupId>org.apache.maven.plugins</groupId>\n" ++
"                <artifactId>maven-compiler-plugin</artifactId>\n" ++
"                <version>3.11.0</version>\n" ++
"            </plugin>\n" ++
"            <plugin>\n" ++
"                <groupId>org.apache.maven.plugins</groupId>\n" ++
"                <artifactId>maven-surefire-plugin</artifactId>\n" ++
"                <version>3.1.2</version>\n" ++
"            </plugin>\n" ++
"        </plugins>\n" ++
"    </build>\n" ++
"</project>"

/-- `_get_default_test_runner` (lines 863-878); the parameter is unused by
the template itself. -/
def _get_default_test_runner (feature_name : String) : String :=
"package com.testgen;\n" ++
"\n" ++
"import io.cucumber.junit.Cucumber;\n" ++
"import io.cucumber.junit.CucumberOptions;\n" ++
"import org.junit.runner.RunWith;\n" ++
"\n" ++
"@RunWith(Cucumber.class)\n" ++
"@CucumberOptions(\n" ++
"    features = \"src/test/resources/features\",\n" ++
"    glue = \"com.testgen.stepdefinitions\",\n" ++
"    plugin = \x7b\"pretty\", \"html:target/cucumber-reports\", \"json:target/cucumber-reports/Cucumber.json\"\x7d,\n" ++
"    monochrome = true\n" ++
")\n" ++
"public class TestRunner \x7b\n" ++
"\x7d"

/-- `_get_default_base_page` (lines 880-914). -/
def _get_default_base_page : String :=
"package com.testgen.pages;\n" ++
"\n" ++
"import org.openqa.selenium.WebDriver;\n" ++
"import org.openqa.selenium.WebElement;\n" ++
"import org.openqa.selenium.support.PageFactory;\n" ++
"import org.openqa.selenium.support.ui.WebDriverWait;\n" ++
"import org.openqa.selenium.support.ui.ExpectedConditions;\n" ++
"import java.time.Duration;\n" ++
"\n" ++
"public class BasePage \x7b\n" ++
"    protected WebDriver driver;\n" ++
"    protected WebDriverWait wait;\n" ++
"    \n" ++
"    public BasePage(WebDriver driver) \x7b\n" ++
"        this.driver = driver;\n" ++
"        this.wait = new WebDriverWait(driver, Duration.ofSeconds(10));\n" ++
"        PageFactory.initElements(driver, this);\n" ++
"    \x7d\n" ++
"    \n" ++
"    protected void waitForElement(WebElement element) \x7b\n" ++
"        wait.until(ExpectedConditions.visibilityOf(element));\n" ++
"    \x7d\n" ++
"    \n" ++
"    protected void clickElement(WebElement element) \x7b\n" ++
"        waitForElement(element);\n" ++
"        element.click();\n" ++
"    \x7d\n" ++
"    \n" ++
"    protected void enterText(WebElement element, String text) \x7b\n" ++
"        waitForElement(element);\n" ++
"        element.clear();\n" ++
"        element.sendKeys(text);\n" ++
"    \x7d\n" ++
"\x7d"

/-- The search-feature step-definition template (lines 926-1078), Google
step vocabulary included; only the class name is interpolated. -/
def searchStepsTemplate (class_name : String) : String :=
"package com.testgen.stepdefinitions;\n" ++
"\n" ++
"import io.cucumber.java.en.Given;\n" ++
"import io.cucumber.java.en.When;\n" ++
"import io.cucumber.java.en.Then;\n" ++
"import io.cucumber.java.en.And;\n" ++
"import org.junit.Assert;\n" ++
"import org.openqa.selenium.By;\n" ++
"import org.openqa.selenium.Keys;\n" ++
"import org.openqa.selenium.WebDriver;\n" ++
"import org.openqa.selenium.WebElement;\n" ++
"import org.openqa.selenium.support.ui.ExpectedConditions;\n" ++
"import org.openqa.selenium.support.ui.WebDriverWait;\n" ++
"import java.time.Duration;\n" ++
"\n" ++
"public class " ++
class_name ++
"Steps \x7b\n" ++
"    \n" ++
"    private WebDriver driver;\n" ++
"    private WebDriverWait wait;\n" ++
"    private long startTime;\n" ++
"    \n" ++
"    @Given(\"I navigate to \x7bstring\x7d\")\n" ++
"    public void i_navigate_to(String url) \x7b\n" ++
"        driver.get(url);\n" ++
"    \x7d\n" ++
"    \n" ++
"    @And(\"I wait for the search box to be visible\")\n" ++
"    public void i_wait_for_search_box() \x7b\n" ++
"        wait = new WebDriverWait(driver, Duration.ofSeconds(10));\n" ++
"        wait.until(ExpectedConditions.visibilityOfElementLocated(By.name(\"q\")));\n" ++
"    \x7d\n" ++
"    \n" ++
"    @When(\"I enter \x7bstring\x7d in the Google search box\")\n" ++
"    public void i_enter_search_term(String searchTerm) \x7b\n" ++
"        WebElement searchBox = driver.findElement(By.name(\"q\"));\n" ++
"        searchBox.clear();\n" ++
"        searchBox.sendKeys(searchTerm);\n" ++
"    \x7d\n" ++
"    \n" ++
"    @And(\"I press Enter or click the Google Search button\")\n" ++
"    public void i_click_search_button() \x7b\n" ++
"        WebElement searchBox = driver.findElement(By.name(\"q\"));\n" ++
"        searchBox.sendKeys(Keys.ENTER);\n" ++
"    \x7d\n" ++
"    \n" ++
"    @And(\"I click the Google Search button\")\n" ++
"    public void i_click_google_search_button() \x7b\n" ++
"        WebElement searchButton = driver.findElement(By.name(\"btnK\"));\n" ++
"        searchButton.click();\n" ++
"    \x7d\n" ++
"    \n" ++
"    @Then(\"I should see search results for \x7bstring\x7d\")\n" ++
"    public void i_should_see_search_results(String searchTerm) \x7b\n" ++
"        wait.until(ExpectedConditions.presenceOfElementLocated(By.id(\"search\")));\n" ++
"        String pageSource = driver.getPageSource();\n" ++
"        Assert.assertTrue(\"Search results not found for: \" + searchTerm, \n" ++
"            pageSource.contains(searchTerm) || !driver.findElements(By.cssSelector(\"#search .g\")).isEmpty());\n" ++
"    \x7d\n" ++
"    \n" ++
"    @And(\"the results should contain relevant links\")\n" ++
"    public void results_contain_links() \x7b\n" ++
"        Assert.assertTrue(\"No search result links found\", \n" ++
"            driver.findElements(By.cssSelector(\"#search .g a\")).size() > 0);\n" ++
"    \x7d\n" ++
"    \n" ++
"    @And(\"the search query should be displayed in the search box\")\n" ++
"    public void search_query_displayed() \x7b\n" ++
"        WebElement searchBox = driver.findElement(By.name(\"q\"));\n" ++
"        Assert.assertFalse(\"Search box is empty\", searchBox.getAttribute(\"value\").isEmpty());\n" ++
"    \x7d\n" ++
"    \n" ++
"    @When(\"I start typing \x7bstring\x7d in the Google search box\")\n" ++
"    public void i_start_typing(String partialText) \x7b\n" ++
"        WebElement searchBox = driver.findElement(By.name(\"q\"));\n" ++
"        searchBox.clear();\n" ++
"        searchBox.sendKeys(partialText);\n" ++
"    \x7d\n" ++
"    \n" ++
"    @Then(\"I should see search suggestions dropdown\")\n" ++
"    public void i_should_see_suggestions() \x7b\n" ++
"        wait.until(ExpectedConditions.visibilityOfElementLocated(By.cssSelector(\".suggestions, [role=\x27listbox\x27]\")));\n" ++
"        Assert.assertTrue(\"Suggestions dropdown not visible\", \n" ++
"            driver.findElements(By.cssSelector(\".suggestions, [role=\x27listbox\x27]\")).size() > 0);\n" ++
"    \x7d\n" ++
"    \n" ++
"    @And(\"the suggestions should be related to \x7bstring\x7d\")\n" ++
"    public void suggestions_related_to(String searchTerm) \x7b\n" ++
"        // Verify suggestions are present\n" ++
"        Assert.assertTrue(\"No suggestions found\", \n" ++
"            driver.findElements(By.cssSelector(\"[role=\x27option\x27]\")).size() > 0);\n" ++
"    \x7d\n" ++
"    \n" ++
"    @And(\"results should contain keywords \x7bstring\x7d, \x7bstring\x7d, and \x7bstring\x7d\")\n" ++
"    public void results_contain_keywords(String keyword1, String keyword2, String keyword3) \x7b\n" ++
"        String pageContent = driver.findElement(By.id(\"search\")).getText().toLowerCase();\n" ++
"        Assert.assertTrue(\"Keyword not found: \" + keyword1, pageContent.contains(keyword1.toLowerCase()));\n" ++
"    \x7d\n" ++
"    \n" ++
"    @When(\"I click on the \x7bstring\x7d button at the bottom\")\n" ++
"    public void i_click_next_button(String buttonText) \x7b\n" ++
"        WebElement nextButton = driver.findElement(By.linkText(buttonText));\n" ++
"        nextButton.click();\n" ++
"    \x7d\n" ++
"    \n" ++
"    @Then(\"I should see the second page of results\")\n" ++
"    public void i_see_second_page() \x7b\n" ++
"        wait.until(ExpectedConditions.presenceOfElementLocated(By.id(\"search\")));\n" ++
"        Assert.assertTrue(\"Not on second page\", driver.findElements(By.id(\"search\")).size() > 0);\n" ++
"    \x7d\n" ++
"    \n" ++
"    @And(\"the URL should contain \x7bstring\x7d\")\n" ++
"    public void url_contains(String text) \x7b\n" ++
"        Assert.assertTrue(\"URL does not contain: \" + text, driver.getCurrentUrl().contains(text));\n" ++
"    \x7d\n" ++
"    \n" ++
"    @When(\"I click on the \x7bstring\x7d tab\")\n" ++
"    public void i_click_tab(String tabName) \x7b\n" ++
"        WebElement tab = driver.findElement(By.linkText(tabName));\n" ++
"        tab.click();\n" ++
"    \x7d\n" ++
"    \n" ++
"    @Then(\"I should see image results for \x7bstring\x7d\")\n" ++
"    public void i_see_image_results(String searchTerm) \x7b\n" ++
"        wait.until(ExpectedConditions.presenceOfElementLocated(By.cssSelector(\"[data-ri]\")));\n" ++
"        Assert.assertTrue(\"Image results not found\", \n" ++
"            driver.findElements(By.cssSelector(\"[data-ri]\")).size() > 0);\n" ++
"    \x7d\n" ++
"    \n" ++
"    @And(\"I note the current time\")\n" ++
"    public void note_current_time() \x7b\n" ++
"        startTime = System.currentTimeMillis();\n" ++
"    \x7d\n" ++
"    \n" ++
"    @Then(\"search results should load within \x7bint\x7d seconds\")\n" ++
"    public void results_load_within_seconds(int seconds) \x7b\n" ++
"        long endTime = System.currentTimeMillis();\n" ++
"        long loadTime = (endTime - startTime) / 1000;\n" ++
"        Assert.assertTrue(\"Page load time exceeded: \" + loadTime + \"s\", loadTime <= seconds);\n" ++
"    \x7d\n" ++
"    \n" ++
"    @And(\"the page should display the number of results found\")\n" ++
"    public void page_displays_result_count() \x7b\n" ++
"        WebElement resultStats = driver.findElement(By.id(\"result-stats\"));\n" ++
"        Assert.assertFalse(\"Result stats not displayed\", resultStats.getText().isEmpty());\n" ++
"    \x7d\n" ++
"    \n" ++
"    @And(\"the page should not display any error\")\n" ++
"    public void no_error_displayed() \x7b\n" ++
"        Assert.assertFalse(\"Error page displayed\", \n" ++
"            driver.getPageSource().toLowerCase().contains(\"error\") && \n" ++
"            driver.getPageSource().toLowerCase().contains(\"404\"));\n" ++
"    \x7d\n" ++
"\x7d"

/-- The generic step-definition template (lines 1082-1131). -/
def genericStepsTemplate (class_name feature_name : String) : String :=
"package com.testgen.stepdefinitions;\n" ++
"\n" ++
"import io.cucumber.java.en.Given;\n" ++
"import io.cucumber.java.en.When;\n" ++
"import io.cucumber.java.en.Then;\n" ++
"import io.cucumber.java.en.And;\n" ++
"import org.junit.Assert;\n" ++
"import org.openqa.selenium.WebDriver;\n" ++
"\n" ++
"public class " ++
class_name ++
"Steps \x7b\n" ++
"    \n" ++
"    private WebDriver driver;\n" ++
"    \n" ++
"    @Given(\"I navigate to \x7bstring\x7d\")\n" ++
"    public void i_navigate_to(String url) \x7b\n" ++
"        driver.get(url);\n" ++
"    \x7d\n" ++
"    \n" ++
"    @And(\"the page loads successfully\")\n" ++
"    public void page_loads_successfully() \x7b\n" ++
"        Assert.assertNotNull(\"Driver not initialized\", driver);\n" ++
"        Assert.assertTrue(\"Page title is empty\", !driver.getTitle().isEmpty());\n" ++
"    \x7d\n" ++
"    \n" ++
"    @When(\"I interact with the " ++
pyReplaceChar feature_name uscore blankc ++
" feature\")\n" ++
"    public void i_interact_with_feature() \x7b\n" ++
"        // TODO: Implement feature interaction\n" ++
"    \x7d\n" ++
"    \n" ++
"    @And(\"I provide valid input data\")\n" ++
"    public void i_provide_valid_input() \x7b\n" ++
"        // TODO: Implement valid input\n" ++
"    \x7d\n" ++
"    \n" ++
"    @And(\"I submit the form\")\n" ++
"    public void i_submit_form() \x7b\n" ++
"        // TODO: Implement form submission\n" ++
"    \x7d\n" ++
"    \n" ++
"    @Then(\"the action should complete successfully\")\n" ++
"    public void action_completes_successfully() \x7b\n" ++
"        // TODO: Implement success verification\n" ++
"        Assert.assertTrue(\"Action did not complete\", true);\n" ++
"    \x7d\n" ++
"    \n" ++
"    @And(\"I should see a confirmation message\")\n" ++
"    public void i_see_confirmation() \x7b\n" ++
"        // TODO: Verify confirmation message\n" ++
"    \x7d\n" ++
"\x7d"

/-- `_get_default_step_definitions` (lines 916-1131): build the class name
from the title-cased underscore words, then pick the search template when
the lowered feature name contains `"search"`, the generic one otherwise.
The source also computes a search term in the first branch which the
template never interpolates; it is dropped here. -/
def _get_default_step_definitions (feature_name : String) : String :=
  let class_name := String.join ((pySplitChar feature_name uscore).map pyTitle)
  let feature_lower := pyLower feature_name
  if strContainsSub feature_lower "search" then
    searchStepsTemplate class_name
  else
    genericStepsTemplate class_name feature_name

/-- The Google-specific search scenario template (lines 1168-1224). -/
def googleSearchScenarios (search_term base_url : String) : String :=
"  Background:\n" ++
"    Given I navigate to \"" ++
base_url ++
"\"\n" ++
"    And I wait for the search box to be visible\n" ++
"\n" ++
"  @smoke @search\n" ++
"  Scenario: Search for " ++
search_term ++
" with valid query\n" ++
"    When I enter \"" ++
search_term ++
"\" in the Google search box\n" ++
"    And I press Enter or click the Google Search button\n" ++
"    Then I should see search results for \"" ++
search_term ++
"\"\n" ++
"    And the results should contain relevant links\n" ++
"    And the search query should be displayed in the search box\n" ++
"\n" ++
"  @search\n" ++
"  Scenario: Verify search suggestions for " ++
search_term ++
"\n" ++
"    When I start typing \"" ++
(if 5 < search_term.data.length then String.mk (search_term.data.take 5) else search_term) ++
"\" in the Google search box\n" ++
"    Then I should see search suggestions dropdown\n" ++
"    And the suggestions should be related to \"" ++
search_term ++
"\"\n" ++
"\n" ++
"  @search\n" ++
"  Scenario: Search with multiple keywords\n" ++
"    When I enter \"" ++
search_term ++
" best price 2024\" in the Google search box\n" ++
"    And I click the Google Search button\n" ++
"    Then I should see search results\n" ++
"    And results should contain keywords \"" ++
search_term ++
"\", \"price\", and \"2024\"\n" ++
"\n" ++
"  @search @negative\n" ++
"  Scenario: Search with special characters\n" ++
"    When I enter \"" ++
search_term ++
" @#$%^&*()\" in the Google search box\n" ++
"    And I click the Google Search button\n" ++
"    Then I should see search results or \"no special results\" message\n" ++
"    And the page should not display any error\n" ++
"\n" ++
"  @search @navigation\n" ++
"  Scenario: Navigate through search result pages\n" ++
"    When I enter \"" ++
search_term ++
"\" in the Google search box\n" ++
"    And I click the Google Search button\n" ++
"    Then I should see search results for \"" ++
search_term ++
"\"\n" ++
"    When I click on the \"Next\" button at the bottom\n" ++
"    Then I should see the second page of results\n" ++
"    And the URL should contain \"start=10\"\n" ++
"\n" ++
"  @search @filters\n" ++
"  Scenario: Search and apply filters\n" ++
"    When I enter \"" ++
search_term ++
"\" in the Google search box\n" ++
"    And I click the Google Search button\n" ++
"    Then I should see search results for \"" ++
search_term ++
"\"\n" ++
"    When I click on the \"Images\" tab\n" ++
"    Then I should see image results for \"" ++
search_term ++
"\"\n" ++
"    And the URL should contain \"tbm=isch\"\n" ++
"\n" ++
"  @search @performance\n" ++
"  Scenario: Verify search results load time\n" ++
"    When I enter \"" ++
search_term ++
"\" in the Google search box\n" ++
"    And I note the current time\n" ++
"    And I click the Google Search button\n" ++
"    Then search results should load within 3 seconds\n" ++
"    And the page should display the number of results found"

/-- The generic search scenario template (lines 1228-1257). -/
def genericSearchScenarios (search_term base_url : String) : String :=
"  Background:\n" ++
"    Given I navigate to \"" ++
base_url ++
"\"\n" ++
"    And I wait for the page to load completely\n" ++
"\n" ++
"  @smoke @search\n" ++
"  Scenario: Search for " ++
search_term ++
" with valid query\n" ++
"    When I locate the search input field\n" ++
"    And I enter \"" ++
search_term ++
"\" in the search box\n" ++
"    And I submit the search form\n" ++
"    Then I should see search results for \"" ++
search_term ++
"\"\n" ++
"    And results should be displayed on the page\n" ++
"\n" ++
"  @search\n" ++
"  Scenario: Search with empty query\n" ++
"    When I locate the search input field\n" ++
"    And I click the search button without entering any text\n" ++
"    Then I should see a validation message or all items displayed\n" ++
"\n" ++
"  @search @negative\n" ++
"  Scenario: Search with non-existent " ++
search_term ++
"\n" ++
"    When I enter \"xyznonexistent123" ++
search_term ++
"\" in the search box\n" ++
"    And I submit the search form\n" ++
"    Then I should see \"no results found\" or similar message\n" ++
"\n" ++
"  @search @filtering\n" ++
"  Scenario: Search and filter results\n" ++
"    When I enter \"" ++
search_term ++
"\" in the search box\n" ++
"    And I submit the search form\n" ++
"    And I apply category or price filters\n" ++
"    Then results should match the applied filters"

/-- The authentication scenario template (lines 1261-1286). -/
def authScenarios (base_url : String) : String :=
"  Background:\n" ++
"    Given I navigate to \"" ++
base_url ++
"\"\n" ++
"\n" ++
"  @smoke @authentication\n" ++
"  Scenario: Successful login with valid credentials\n" ++
"    When I click on the login button\n" ++
"    And I enter valid email \"testuser@example.com\"\n" ++
"    And I enter valid password \"Test@123\"\n" ++
"    And I click the submit button\n" ++
"    Then I should be redirected to the dashboard\n" ++
"    And I should see a welcome message\n" ++
"\n" ++
"  @authentication @negative\n" ++
"  Scenario: Login with invalid credentials\n" ++
"    When I click on the login button\n" ++
"    And I enter email \"invalid@example.com\"\n" ++
"    And I enter password \"wrongpassword\"\n" ++
"    And I click the submit button\n" ++
"    Then I should see an error message \"Invalid credentials\"\n" ++
"    And I should remain on the login page\n" ++
"\n" ++
"  @authentication @validation\n" ++
"  Scenario: Login with empty fields\n" ++
"    When I click on the login button\n" ++
"    And I click the submit button without entering credentials\n" ++
"    Then I should see validation messages for required fields"

/-- The registration scenario template (lines 1290-1313). -/
def registrationScenarios (base_url : String) : String :=
"  Background:\n" ++
"    Given I navigate to \"" ++
base_url ++
"\"\n" ++
"\n" ++
"  @smoke @registration\n" ++
"  Scenario: Successful user registration\n" ++
"    When I click on the sign up button\n" ++
"    And I fill in the registration form with valid data\n" ++
"    And I submit the registration form\n" ++
"    Then I should see a success message\n" ++
"    And I should receive a confirmation email\n" ++
"\n" ++
"  @registration @validation\n" ++
"  Scenario: Registration with existing email\n" ++
"    When I click on the sign up button\n" ++
"    And I enter an already registered email\n" ++
"    And I submit the registration form\n" ++
"    Then I should see an error \"Email already exists\"\n" ++
"\n" ++
"  @registration @validation\n" ++
"  Scenario: Registration with weak password\n" ++
"    When I click on the sign up button\n" ++
"    And I enter a password \"123\"\n" ++
"    And I submit the registration form\n" ++
"    Then I should see a password strength warning"

/-- The checkout scenario template (lines 1317-1342). -/
def checkoutScenarios (base_url : String) : String :=
"  Background:\n" ++
"    Given I navigate to \"" ++
base_url ++
"\"\n" ++
"    And I add items to cart\n" ++
"\n" ++
"  @smoke @checkout\n" ++
"  Scenario: Complete checkout process\n" ++
"    When I navigate to the shopping cart\n" ++
"    And I click on proceed to checkout\n" ++
"    And I fill in shipping information\n" ++
"    And I select a payment method\n" ++
"    And I confirm the order\n" ++
"    Then I should see an order confirmation\n" ++
"    And I should receive a confirmation number\n" ++
"\n" ++
"  @checkout @validation\n" ++
"  Scenario: Checkout with empty cart\n" ++
"    When I clear all items from cart\n" ++
"    And I try to proceed to checkout\n" ++
"    Then I should see a message \"Your cart is empty\"\n" ++
"\n" ++
"  @checkout\n" ++
"  Scenario: Apply coupon code during checkout\n" ++
"    When I navigate to the shopping cart\n" ++
"    And I enter a valid coupon code\n" ++
"    And I click apply\n" ++
"    Then the discount should be reflected in the total"

/-- The generic CRUD scenario template (lines 1346-1370). -/
def genericScenarios (feature_name base_url : String) : String :=
"  Background:\n" ++
"    Given I navigate to \"" ++
base_url ++
"\"\n" ++
"    And the page loads successfully\n" ++
"\n" ++
"  @smoke\n" ++
"  Scenario: Verify " ++
pyReplaceChar feature_name uscore blankc ++
" functionality\n" ++
"    When I interact with the " ++
pyReplaceChar feature_name uscore blankc ++
" feature\n" ++
"    And I provide valid input data\n" ++
"    And I submit the form\n" ++
"    Then the action should complete successfully\n" ++
"    And I should see a confirmation message\n" ++
"\n" ++
"  @validation\n" ++
"  Scenario: Test " ++
pyReplaceChar feature_name uscore blankc ++
" with invalid data\n" ++
"    When I interact with the " ++
pyReplaceChar feature_name uscore blankc ++
" feature\n" ++
"    And I provide invalid input data\n" ++
"    And I submit the form\n" ++
"    Then I should see appropriate validation errors\n" ++
"\n" ++
"  @negative\n" ++
"  Scenario: Test " ++
pyReplaceChar feature_name uscore blankc ++
" error handling\n" ++
"    When I interact with the " ++
pyReplaceChar feature_name uscore blankc ++
" feature\n" ++
"    And I simulate a system error\n" ++
"    Then I should see a user-friendly error message\n" ++
"    And the system should handle the error gracefully"

/-- `_generate_intelligent_scenarios` (lines 1157-1370): the ordered chain
of substring tests over the lowered feature name; the search branch further
tests the lowered base url for `"google"`.  `page_title` is accepted and,
as in the source, never used by any template. -/
def _generate_intelligent_scenarios
    (feature_name feature_lower base_url page_title : String) : String :=
  if strContainsSub feature_lower "search" then
    if strContainsSub (pyLower base_url) "google" then
      googleSearchScenarios (searchTermOf feature_name) base_url
    else
      genericSearchScenarios (searchTermOf feature_name) base_url
  else if strContainsSub feature_lower "login" ||
      strContainsSub feature_lower "signin" ||
      strContainsSub feature_lower "auth" then
    authScenarios base_url
  else if strContainsSub feature_lower "register" ||
      strContainsSub feature_lower "signup" ||
      strContainsSub feature_lower "sign up" then
    registrationScenarios base_url
  else if strContainsSub feature_lower "checkout" ||
      strContainsSub feature_lower "cart" ||
      strContainsSub feature_lower "purchase" then
    checkoutScenarios base_url
  else
    genericScenarios feature_name base_url

/-- `_get_default_feature_file` (lines 1133-1155): resolve the base url and
page title from the first truthy url source, lower the feature name, pick
the scenario template, and wrap it in the feature header.  The `content`
parameter is accepted and unused, as in the source. -/
def _get_default_feature_file (feature_name content : String)
    (context : AggregatedContext) : String :=
  let base_url := resolveBaseUrl context
  let page_title := resolvePageTitle context
  let feature_lower := pyLower feature_name
  let scenarios :=
    _generate_intelligent_scenarios feature_name feature_lower base_url page_title
"Feature: " ++
pyTitle (pyReplaceChar feature_name (Char.ofNat 95) (Char.ofNat 32)) ++
"\n" ++
"  As a user\n" ++
"  I want to " ++
pyLower (pyReplaceChar feature_name (Char.ofNat 95) (Char.ofNat 32)) ++
"\n" ++
"  So that I can find relevant results\n" ++
"\n" ++
scenarios ++
"\n"

/-- `_get_default_config` (lines 1372-1393). -/
def _get_default_config (context : AggregatedContext) : String :=
  let base_url := resolveBaseUrl context
"# Test Configuration\n" ++
"browser=chrome\n" ++
"base.url=" ++
base_url ++
"\n" ++
"timeout=10\n" ++
"headless=false\n" ++
"\n" ++
"# Browser configurations\n" ++
"chrome.driver.path=\n" ++
"firefox.driver.path=\n" ++
"edge.driver.path=\n" ++
"\n" ++
"# Test data\n" ++
"test.data.path=src/test/resources/testdata/"

/-- `_get_default_readme` (lines 1395-1416). -/
def _get_default_readme (feature_name : String) : String :=
"# " ++
pyTitle (pyReplaceChar feature_name uscore blankc) ++
" Test Suite\n" ++
"\n" ++
"## Overview\n" ++
"This test suite was generated by TestGen AI for testing the " ++
pyReplaceChar feature_name uscore blankc ++
" functionality.\n" ++
"\n" ++
"## Prerequisites\n" ++
"- Java 11 or higher\n" ++
"- Maven 3.6 or higher\n" ++
"- Chrome/Firefox/Edge browser\n" ++
"\n" ++
"## Running Tests\n" ++
"```bash\n" ++
"mvn clean test\n" ++
"```\n" ++
"\n" ++
"## Test Reports\n" ++
"Test reports will be generated in the `target/cucumber-reports` directory.\n" ++
"\n" ++
"## Configuration\n" ++
"Update `src/test/resources/config.properties` with your application settings.\n"

/-- `_create_default_test_structure` (lines 781-798): the fixed seven-file
skeleton keyed by the normalized feature name. -/
def _create_default_test_structure (feature_name content : String)
    (context : AggregatedContext) : List (String × String) :=
  let clean_name := normalizeFeatureName feature_name
  [("pom.xml", _get_default_pom),
   ("src/test/java/TestRunner.java", _get_default_test_runner clean_name),
   ("src/test/java/pages/BasePage.java", _get_default_base_page),
   ("src/test/java/stepdefinitions/" ++ clean_name ++ "_steps.java",
     _get_default_step_definitions clean_name),
   ("src/test/resources/features/" ++ clean_name ++ ".feature",
     _get_default_feature_file clean_name content context),
   ("src/test/resources/config.properties", _get_default_config context),
   ("README.md", _get_default_readme clean_name)]

/-- `_parse_generated_content` (lines 732-779): scan the lines for fenced
file blocks; fall back to the default structure when the scan found no
files. -/
def _parse_generated_content (content feature_name : String)
    (context : AggregatedContext) : List (String × String) :=
  let files := scanFiles content
  if files.isEmpty then
    _create_default_test_structure feature_name content context
  else files

/-- The lines of the mock generation template (lines 385-543), with the
format interpolations spliced in; the `context`/`config` JSON dumps expand
to their own lines. -/
def mockContentLines (feature_name clean_name clean_name_title base_url : String)
    (context : AggregatedContext) (config : GenerationConfig) : List String :=
[("# Mock Test Generation for: " ++ feature_name),
 "",
 "## Generated Test Files:",
 "",
 "```pom.xml",
 "<?xml version=\"1.0\" encoding=\"UTF-8\"?>",
 "<project xmlns=\"http://maven.apache.org/POM/4.0.0\"",
 "         xmlns:xsi=\"http://www.w3.org/2001/XMLSchema-instance\"",
 "         xsi:schemaLocation=\"http://maven.apache.org/POM/4.0.0 ",
 "         http://maven.apache.org/xsd/maven-4.0.0.xsd\">",
 "    <modelVersion>4.0.0</modelVersion>",
 "    ",
 "    <groupId>com.testgen</groupId>",
 "    <artifactId>selenium-cucumber-tests</artifactId>",
 "    <version>1.0.0</version>",
 "    <packaging>jar</packaging>",
 "    ",
 "    <properties>",
 "        <maven.compiler.source>11</maven.compiler.source>",
 "        <maven.compiler.target>11</maven.compiler.target>",
 "        <project.build.sourceEncoding>UTF-8</project.build.sourceEncoding>",
 "    </properties>",
 "    ",
 "    <dependencies>",
 "        <dependency>",
 "            <groupId>io.cucumber</groupId>",
 "            <artifactId>cucumber-java</artifactId>",
 "            <version>7.14.0</version>",
 "        </dependency>",
 "        <dependency>",
 "            <groupId>io.cucumber</groupId>",
 "            <artifactId>cucumber-junit</artifactId>",
 "            <version>7.14.0</version>",
 "        </dependency>",
 "        <dependency>",
 "            <groupId>org.seleniumhq.selenium</groupId>",
 "            <artifactId>selenium-java</artifactId>",
 "            <version>4.15.0</version>",
 "        </dependency>",
 "        <dependency>",
 "            <groupId>io.github.bonigarcia</groupId>",
 "            <artifactId>webdrivermanager</artifactId>",
 "            <version>5.5.3</version>",
 "        </dependency>",
 "        <dependency>",
 "            <groupId>org.junit.jupiter</groupId>",
 "            <artifactId>junit-jupiter</artifactId>",
 "            <version>5.10.0</version>",
 "        </dependency>",
 "    </dependencies>",
 "</project>",
 "```",
 "",
 "```src/test/java/TestRunner.java",
 "package com.testgen;",
 "",
 "import io.cucumber.junit.Cucumber;",
 "import io.cucumber.junit.CucumberOptions;",
 "import org.junit.runner.RunWith;",
 "",
 "@RunWith(Cucumber.class)",
 "@CucumberOptions(",
 "    features = \"src/test/resources/features\",",
 "    glue = \"com.testgen.stepdefinitions\",",
 "    plugin = \x7b\"pretty\", \"html:target/cucumber-reports\", \"json:target/cucumber-reports/Cucumber.json\"\x7d,",
 "    monochrome = true",
 ")",
 "public class TestRunner \x7b",
 "\x7d",
 "```",
 "",
 ("```src/test/resources/features/" ++ clean_name ++ ".feature"),
 ("Feature: " ++ feature_name),
 "  As a user",
 ("  I want to test the " ++ feature_name ++ " functionality"),
 "  So that I can ensure it works correctly",
 "",
 "  Scenario: Basic functionality test",
 ("    Given I am on the page at \"" ++ base_url ++ "\""),
 "    When I perform the main action",
 "    Then I should see the expected result",
 "",
 "  Scenario: Error handling test",
 ("    Given I am on the page at \"" ++ base_url ++ "\""),
 "    When I perform an invalid action",
 "    Then I should see an error message",
 "```",
 "",
 ("```src/test/java/stepdefinitions/" ++ clean_name ++ "_steps.java"),
 "package com.testgen.stepdefinitions;",
 "",
 "import io.cucumber.java.en.Given;",
 "import io.cucumber.java.en.When;",
 "import io.cucumber.java.en.Then;",
 "import org.junit.Assert;",
 "",
 ("public class " ++ clean_name_title ++ "Steps \x7b"),
 "    ",
 "    @Given(\"I am on the page at \x7bstring\x7d\")",
 "    public void i_am_on_the_page(String url) \x7b",
 "        // TODO: Implement navigation to the specified URL",
 "        System.out.println(\"Navigating to \" + url + \"...\");",
 "    \x7d",
 "    ",
 "    @When(\"I perform the main action\")",
 "    public void i_perform_the_main_action() \x7b",
 "        // TODO: Implement main action",
 "        System.out.println(\"Performing main action...\");",
 "    \x7d",
 "    ",
 "    @When(\"I perform an invalid action\")",
 "    public void i_perform_an_invalid_action() \x7b",
 "        // TODO: Implement invalid action",
 "        System.out.println(\"Performing invalid action...\");",
 "    \x7d",
 "    ",
 "    @Then(\"I should see the expected result\")",
 "    public void i_should_see_the_expected_result() \x7b",
 "        // TODO: Implement verification",
 "        Assert.assertTrue(\"Expected result not found\", true);",
 "    \x7d",
 "    ",
 "    @Then(\"I should see an error message\")",
 "    public void i_should_see_an_error_message() \x7b",
 "        // TODO: Implement error verification",
 "        Assert.assertTrue(\"Error message not found\", true);",
 "    \x7d",
 "\x7d",
 "```",
 "",
 "```README.md",
 ("# " ++ feature_name ++ " Test Suite"),
 "",
 "## Overview",
 ("This test suite was generated by TestGen AI for testing the " ++ feature_name ++ " functionality."),
 "",
 "## Prerequisites",
 "- Java 11 or higher",
 "- Maven 3.6 or higher",
 "- Chrome/Firefox/Edge browser",
 "",
 "## Running Tests",
 "```bash",
 "mvn clean test",
 "```",
 "",
 "## Test Reports",
 "Test reports will be generated in the `target/cucumber-reports` directory.",
 "",
 "## Note",
 "This is a mock test suite generated for development purposes. ",
 "To generate real test cases, configure your LLM API keys in the environment variables.",
 "```",
 "",
 "## Context Information Used:"] ++
ctxJsonLines context ++
["",
 "## Configuration Used:"] ++
cfgJsonLines config ++
[""]

/-- `_generate_mock_content` (lines 371-553): normalize the feature name,
resolve the base url from the first truthy url source, and instantiate the
fixed mock response template. -/
def _generate_mock_content (feature_name : String) (context : AggregatedContext)
    (config : GenerationConfig) : String :=
  let clean_name := normalizeFeatureName feature_name
  let clean_name_title := pyEraseChar (pyTitle clean_name) uscore
  let base_url := resolveBaseUrl context
  joinNl (mockContentLines feature_name clean_name clean_name_title base_url
    context config)

/-- The outcome of the one outbound LLM completion call of a generation
request.  The call itself (OpenAI or Anthropic transport) is outside the
model; `err` stands for the call raising any exception, `ok` for it
returning raw text. -/
inductive LLMOutcome where
  | ok (text : String)
  | err (msg : String)
deriving DecidableEq, Repr

/-- `generate_tests` (lines 331-369).  `openai_client` / `anthropic_client`
say whether a usable client was constructed for the provider;
`llmResult` is the outcome of the provider call, consulted only when the
selected provider has a usable client.  The prompt built from the context
feeds only the abstracted call and cannot influence the result, so it is
not re-computed here.  A provider failure or an unavailable provider falls
back to the mock content; the generated text is then parsed into files. -/
def generate_tests (feature_name : String) (context : AggregatedContext)
    (config : GenerationConfig) (openai_client anthropic_client : Bool)
    (llmResult : LLMOutcome) : List (String × String) :=
  let llm_provider := config.llm_provider.getD "openai"
  let generated_content :=
    if llm_provider == "openai" && openai_client then
      match llmResult with
      | .ok t => t
      | .err _ => _generate_mock_content feature_name context config
    else if llm_provider == "anthropic" && anthropic_client then
      match llmResult with
      | .ok t => t
      | .err _ => _generate_mock_content feature_name context config
    else
      _generate_mock_content feature_name context config
  _parse_generated_content generated_content feature_name context

/-- Is a stripped line a bullet or numbered item:
`line.startswith(('*', '-', chr(0x2022)))` or
`line.startswith(('1.', '2.', '3.'))`. -/
def bulletLine (line : String) : Bool :=
  pyStartsWith line "*" || pyStartsWith line "-" || pyStartsWith line "\u2022" ||
  pyStartsWith line "1." || pyStartsWith line "2." || pyStartsWith line "3."

/-- The loop body of `_extract_acceptance_criteria` (lines 92-111): every
line is stripped; a line containing the marker enables collection and is
itself skipped; inside the section bullet lines are collected, blank lines
skipped, and any other line terminates the scan. -/
def criteriaGo : List String → Bool → List String
  | [], _ => []
  | l :: rest, inSection =>
    let line := pyStrip l
    if strContainsSub line "Acceptance Criteria" then criteriaGo rest true
    else if inSection then
      if bulletLine line then line :: criteriaGo rest true
      else if line == "" then criteriaGo rest true
      else []
    else criteriaGo rest false

/-- `_extract_acceptance_criteria` (lines 92-111). -/
def _extract_acceptance_criteria (description : String) : List String :=
  criteriaGo (pySplitNl description) false


/-- Declarative reading of the acceptance-criteria scan, phase one: the
lines strictly after the first line containing the marker (everything when
no line contains it is irrelevant: the result is empty either way). -/
def criteriaRegion : List String → List String
  | [] => []
  | l :: rest =>
    if strContainsSub l "Acceptance Criteria" then rest else criteriaRegion rest

/-- Declarative reading, phase two: collect bullet lines, skipping blank
lines and further marker-bearing lines, stopping at the first other line. -/
def criteriaCollect : List String → List String
  | [] => []
  | l :: rest =>
    if strContainsSub l "Acceptance Criteria" then criteriaCollect rest
    else if bulletLine l then l :: criteriaCollect rest
    else if l == "" then criteriaCollect rest
    else []

/-- Declarative companion of `_extract_acceptance_criteria`: strip every
line, find the region after the first marker line, and collect its bullet
prefix. -/
def criteriaSpec (description : String) : List String :=
  criteriaCollect (criteriaRegion ((pySplitNl description).map pyStrip))

/-- A synthetic fenced file block: the marker line carrying the path, the
content lines, and a closing fence line. -/
def fencedBlockLines (p : String) (ls : List String) (closer : String) :
    List String :=
  ("```path:" ++ p) :: ls ++ [closer]

/-- The lines of a synthetic response made of consecutive fenced blocks,
each closed by a bare fence line. -/
def c3ResponseLines (bs : List (String × List String)) : List String :=
  (bs.map (fun b => fencedBlockLines b.1 b.2 "```")).flatten

/-- The lines of a synthetic response whose blocks carry their own closing
fence lines. -/
def gResponseLines (bs : List (String × List String × String)) : List String :=
  (bs.map (fun b => fencedBlockLines b.1 b.2.1 b.2.2)).flatten

/-- The file entries the scan records for a block list: one entry per block
with at least one content line, keyed by the path, valued by the joined
content lines. -/
def blockEntries (bs : List (String × List String)) : List (String × String) :=
  (bs.filter (fun b => !b.2.isEmpty)).map (fun b => (b.1, joinNl b.2))

/-- `blockEntries` for blocks carrying their own closer lines. -/
def gBlockEntries (bs : List (String × List String × String)) :
    List (String × String) :=
  (bs.filter (fun b => !b.2.1.isEmpty)).map (fun b => (b.1, joinNl b.2.1))

/-- A line that cannot interact with the fence scanner. -/
def plainLine (l : String) : Bool :=
  !pyStartsWith l "```"

/-- A line the scanner treats as closing an open block: it starts with the
fence and carries no colon. -/
def closerLine (l : String) : Bool :=
  pyStartsWith l "```" && !pyHasChar l ':'

/-- A well-behaved synthetic path: non-empty, and free of whitespace,
colons and backticks, so that the marker line reproduces it exactly. -/
def cleanPath (p : String) : Bool :=
  !p.isEmpty && p.data.all (fun c => !c.isWhitespace && !(c == ':') && !(c == '`'))

theorem data_mk (l : List Char) : (String.mk l).data = l := rfl

theorem mk_data (s : String) : String.mk s.data = s := rfl

theorem splitOnCh_of_not_mem {sep : Char} {l : List Char}
    (h : ∀ c ∈ l, c ≠ sep) : splitOnCh sep l = [l] := by
  induction l with
  | nil => rfl
  | cons c rest ih =>
    have hc : (c == sep) = false := by
      simp only [beq_eq_false_iff_ne]
      exact h c (List.mem_cons_self c rest)
    simp only [splitOnCh, hc, Bool.false_eq_true, if_false,
      ih (fun x hx => h x (List.mem_cons_of_mem c hx))]

theorem splitOnCh_append {sep : Char} {l r : List Char}
    (h : ∀ c ∈ l, c ≠ sep) :
    splitOnCh sep (l ++ sep :: r) = l :: splitOnCh sep r := by
  induction l with
  | nil =>
    simp only [List.nil_append, splitOnCh, beq_self_eq_true, if_true]
  | cons c rest ih =>
    have hc : (c == sep) = false := by
      simp only [beq_eq_false_iff_ne]
      exact h c (List.mem_cons_self c rest)
    have ihr := ih (fun x hx => h x (List.mem_cons_of_mem c hx))
    simp only [List.cons_append, splitOnCh, hc, Bool.false_eq_true, if_false]
    rw [show rest.append (sep :: r) = rest ++ sep :: r from rfl, ihr]

theorem joinNl_cons (l : String) (rest : List String) (h : rest ≠ []) :
    joinNl (l :: rest) = l ++ "\n" ++ joinNl rest := by
  unfold joinNl
  match rest, h with
  | r :: rs, _ => simp [pyJoin]

theorem pySplitNl_joinNl {ls : List String}
    (h : ∀ s ∈ ls, ∀ c ∈ s.data, c ≠ '\n') (hne : ls ≠ []) :
    pySplitNl (joinNl ls) = ls := by
  induction ls with
  | nil => exact absurd rfl hne
  | cons l rest ih =>
    match rest with
    | [] =>
      unfold pySplitNl pySplitChar joinNl pyJoin
      rw [splitOnCh_of_not_mem (h l (List.mem_cons_self l []))]
      simp [mk_data]
    | r :: rs =>
      rw [joinNl_cons l (r :: rs) (by simp)]
      unfold pySplitNl pySplitChar
      have hdata : (l ++ "\n" ++ joinNl (r :: rs)).data
          = l.data ++ '\n' :: (joinNl (r :: rs)).data := by
        simp [String.data_append]
      rw [hdata, splitOnCh_append (h l (List.mem_cons_self l (r :: rs)))]
      have ihr := ih (fun s hs c hc => h s (List.mem_cons_of_mem l hs) c hc)
        (by simp)
      unfold pySplitNl pySplitChar at ihr
      simp only [List.map_cons, mk_data, ihr]

theorem dropWhileWs_eq_of_all {l : List Char}
    (h : ∀ c ∈ l, c.isWhitespace = false) :
    l.dropWhile Char.isWhitespace = l := by
  cases l with
  | nil => rfl
  | cons a rest =>
    rw [List.dropWhile_cons, if_neg]
    simp [h a (List.mem_cons_self a rest)]

theorem rstripData_eq_of_all {l : List Char}
    (h : ∀ c ∈ l, c.isWhitespace = false) : rstripData l = l := by
  unfold rstripData
  rw [dropWhileWs_eq_of_all (fun c hc => h c (List.mem_reverse.mp hc)),
    List.reverse_reverse]

theorem stripData_eq_of_all {l : List Char}
    (h : ∀ c ∈ l, c.isWhitespace = false) : stripData l = l := by
  unfold stripData
  rw [dropWhileWs_eq_of_all h, rstripData_eq_of_all h]

theorem replaceTicksData_cons {a : Char} {rest : List Char} (ha : a ≠ '`') :
    replaceTicksData (a :: rest) = a :: replaceTicksData rest := by
  rw [replaceTicksData.eq_def]
  split
  · rename_i heq
    injection heq with h1 _
    exact absurd h1 ha
  · rename_i c cs heq
    injection heq with h1 h2
    rw [h1, h2]
  · rename_i heq
    cases heq

theorem replaceTicksData_eq_of_all {l : List Char}
    (h : ∀ c ∈ l, c ≠ '`') : replaceTicksData l = l := by
  induction l with
  | nil => rfl
  | cons a rest ih =>
    rw [replaceTicksData_cons (h a (List.mem_cons_self a rest)),
      ih (fun x hx => h x (List.mem_cons_of_mem a hx))]

theorem parseStep_closed {fs : List (String × String)} {cc : List String}
    {l : String} (h : isFileMarker l = false) :
    parseStep ⟨fs, none, cc⟩ l = ⟨fs, none, cc⟩ := by
  unfold parseStep
  cases hpw : pyStartsWith l "```" <;> simp [h, hpw, optStrTruthy]

theorem parseStep_content {fs : List (String × String)} {cc : List String}
    {p l : String} (hp : p.isEmpty = false) (hl : plainLine l = true) :
    parseStep ⟨fs, some p, cc⟩ l = ⟨fs, some p, cc ++ [l]⟩ := by
  have hpw : pyStartsWith l "```" = false := by
    unfold plainLine at hl
    simp only [Bool.not_eq_true'] at hl
    exact hl
  have hm : isFileMarker l = false := by
    unfold isFileMarker
    rw [hpw]
    rfl
  unfold parseStep
  simp [hm, hpw, optStrTruthy, hp]

theorem parseStep_closer {fs : List (String × String)} {cc : List String}
    {p cl : String} (hp : p.isEmpty = false) (hc : closerLine cl = true) :
    parseStep ⟨fs, some p, cc⟩ cl =
      ⟨if cc.isEmpty then fs else dictInsert fs p (joinNl cc), none, []⟩ := by
  unfold closerLine at hc
  rw [Bool.and_eq_true] at hc
  have hm : isFileMarker cl = false := by
    unfold isFileMarker
    rw [hc.1, Bool.true_and]
    simpa using hc.2
  unfold parseStep
  simp only [hm, Bool.false_eq_true, if_false, hc.1, optStrTruthy, hp,
    Bool.not_false, Bool.and_true, Bool.true_and, if_true, Option.getD_some]
  by_cases hcc : cc.isEmpty <;> simp [hcc]

theorem parseStep_marker_closed {fs : List (String × String)} {cc : List String}
    {l : String} (hm : isFileMarker l = true) :
    parseStep ⟨fs, none, cc⟩ l = ⟨fs, some (markerPath l), []⟩ := by
  unfold parseStep
  simp [hm, optStrTruthy]

theorem isFileMarker_markerLine (p : String) :
    isFileMarker ("```path:" ++ p) = true := by
  unfold isFileMarker pyStartsWith pyHasChar
  rw [String.data_append]
  show (['`', '`', '`'].isPrefixOf
    (['`', '`', '`', 'p', 'a', 't', 'h', ':'] ++ p.data) &&
    (['`', '`', '`', 'p', 'a', 't', 'h', ':'] ++ p.data).contains ':') = true
  simp [List.isPrefixOf, List.contains_eq_any_beq]

theorem cleanPath_spec {p : String} (h : cleanPath p = true) :
    p.isEmpty = false ∧ ∀ c ∈ p.data,
      c.isWhitespace = false ∧ c ≠ ':' ∧ c ≠ '`' := by
  unfold cleanPath at h
  rw [Bool.and_eq_true, List.all_eq_true] at h
  refine ⟨by simpa using h.1, fun c hc => ?_⟩
  have := h.2 c hc
  simp only [Bool.and_eq_true, Bool.not_eq_true', beq_eq_false_iff_ne] at this
  exact ⟨this.1.1, this.1.2, this.2⟩

theorem markerPath_markerLine {p : String} (h : cleanPath p = true) :
    markerPath ("```path:" ++ p) = p := by
  obtain ⟨-, hchars⟩ := cleanPath_spec h
  have hdata : ("```path:" ++ p).data =
      '`' :: '`' :: '`' :: ('p' :: 'a' :: 't' :: 'h' :: ':' :: p.data) := by
    rw [String.data_append]; rfl
  have hticks : replaceTicksData ("```path:" ++ p).data =
      'p' :: 'a' :: 't' :: 'h' :: ':' :: p.data := by
    rw [hdata]
    show replaceTicksData ('`' :: '`' :: '`' ::
      ('p' :: 'a' :: 't' :: 'h' :: ':' :: p.data)) = _
    rw [replaceTicksData.eq_def]
    have : ∀ c ∈ 'p' :: 'a' :: 't' :: 'h' :: ':' :: p.data, c ≠ '`' := by
      intro c hc
      rcases List.mem_cons.mp hc with rfl | hc; · decide
      rcases List.mem_cons.mp hc with rfl | hc; · decide
      rcases List.mem_cons.mp hc with rfl | hc; · decide
      rcases List.mem_cons.mp hc with rfl | hc; · decide
      rcases List.mem_cons.mp hc with rfl | hc; · decide
      exact (hchars c hc).2.2
    exact replaceTicksData_eq_of_all this
  have hnows : ∀ c ∈ 'p' :: 'a' :: 't' :: 'h' :: ':' :: p.data,
      c.isWhitespace = false := by
    intro c hc
    rcases List.mem_cons.mp hc with rfl | hc; · decide
    rcases List.mem_cons.mp hc with rfl | hc; · decide
    rcases List.mem_cons.mp hc with rfl | hc; · decide
    rcases List.mem_cons.mp hc with rfl | hc; · decide
    rcases List.mem_cons.mp hc with rfl | hc; · decide
    exact (hchars c hc).1
  unfold markerPath replaceTicks pyStrip pyHasChar dropToColon
  simp only [data_mk, hticks, stripData_eq_of_all hnows]
  have hhas : ('p' :: 'a' :: 't' :: 'h' :: ':' :: p.data).contains ':' = true := by
    simp [List.contains_eq_any_beq]
  simp only [hhas, if_true]
  show String.mk (stripData (dropToColonData
    ('p' :: 'a' :: 't' :: 'h' :: ':' :: p.data))) = p
  have hdrop : dropToColonData ('p' :: 'a' :: 't' :: 'h' :: ':' :: p.data)
      = p.data := rfl
  rw [hdrop, stripData_eq_of_all (fun c hc => (hchars c hc).1), mk_data]

theorem foldl_parseStep_closed {fs : List (String × String)} {cc : List String}
    {lines : List String} (h : ∀ l ∈ lines, isFileMarker l = false) :
    lines.foldl parseStep ⟨fs, none, cc⟩ = ⟨fs, none, cc⟩ := by
  induction lines with
  | nil => rfl
  | cons l rest ih =>
    rw [List.foldl_cons, parseStep_closed (h l (List.mem_cons_self l rest))]
    exact ih (fun x hx => h x (List.mem_cons_of_mem l hx))

theorem foldl_parseStep_content {fs : List (String × String)} {p : String}
    (hp : p.isEmpty = false) {ls : List String}
    (h : ∀ l ∈ ls, plainLine l = true) {acc : List String} :
    ls.foldl parseStep ⟨fs, some p, acc⟩ = ⟨fs, some p, acc ++ ls⟩ := by
  induction ls generalizing acc with
  | nil => simp
  | cons l rest ih =>
    rw [List.foldl_cons, parseStep_content hp (h l (List.mem_cons_self l rest)),
      ih (fun x hx => h x (List.mem_cons_of_mem l hx))]
    simp

theorem foldl_parseStep_block {fs : List (String × String)} {p : String}
    {ls : List String} {cl : String} (hpath : cleanPath p = true)
    (hls : ∀ l ∈ ls, plainLine l = true) (hcl : closerLine cl = true) :
    (fencedBlockLines p ls cl).foldl parseStep ⟨fs, none, []⟩ =
      ⟨if ls.isEmpty then fs else dictInsert fs p (joinNl ls), none, []⟩ := by
  have hp : p.isEmpty = false := (cleanPath_spec hpath).1
  unfold fencedBlockLines
  show (ls ++ [cl]).foldl parseStep
    (parseStep ⟨fs, none, []⟩ ("```path:" ++ p)) = _
  rw [parseStep_marker_closed (isFileMarker_markerLine p),
    markerPath_markerLine hpath, List.foldl_append, foldl_parseStep_content hp hls,
    List.nil_append]
  show parseStep ⟨fs, some p, ls⟩ cl = _
  rw [parseStep_closer hp hcl]

theorem foldl_parseStep_response {bs : List (String × List String × String)}
    (hwf : ∀ b ∈ bs, cleanPath b.1 = true ∧ (∀ l ∈ b.2.1, plainLine l = true) ∧
      closerLine b.2.2 = true) {fs : List (String × String)} :
    (gResponseLines bs).foldl parseStep ⟨fs, none, []⟩ =
      ⟨dictInsertMany fs (gBlockEntries bs), none, []⟩ := by
  induction bs generalizing fs with
  | nil => rfl
  | cons b rest ih =>
    obtain ⟨hb1, hb2, hb3⟩ := hwf b (List.mem_cons_self b rest)
    have hrest := fun x hx => hwf x (List.mem_cons_of_mem b hx)
    have hlines : gResponseLines (b :: rest) =
        fencedBlockLines b.1 b.2.1 b.2.2 ++ gResponseLines rest := by
      unfold gResponseLines
      rw [List.map_cons, List.flatten_cons]
    rw [hlines, List.foldl_append, foldl_parseStep_block hb1 hb2 hb3, ih hrest]
    by_cases hcc : b.2.1.isEmpty
    · have : gBlockEntries (b :: rest) = gBlockEntries rest := by
        unfold gBlockEntries
        rw [List.filter_cons, if_neg (by simp [hcc])]
      rw [this, if_pos hcc]
    · have : gBlockEntries (b :: rest) =
          (b.1, joinNl b.2.1) :: gBlockEntries rest := by
        unfold gBlockEntries
        rw [List.filter_cons, if_pos (by simp [hcc])]
        rfl
      rw [this, if_neg hcc]
      rfl

theorem dictInsert_fresh {fs : List (String × String)} {k v : String}
    (h : ∀ e ∈ fs, e.1 ≠ k) : dictInsert fs k v = fs ++ [(k, v)] := by
  induction fs with
  | nil => rfl
  | cons e rest ih =>
    unfold dictInsert
    rw [if_neg (by simpa using h e (List.mem_cons_self e rest)),
      ih (fun x hx => h x (List.mem_cons_of_mem e hx))]
    rfl

theorem dictInsertMany_fresh {es fs : List (String × String)}
    (hdisj : ∀ e ∈ es, ∀ f ∈ fs, f.1 ≠ e.1)
    (hnd : (es.map Prod.fst).Nodup) :
    dictInsertMany fs es = fs ++ es := by
  induction es generalizing fs with
  | nil => simp [dictInsertMany]
  | cons e rest ih =>
    have step : dictInsertMany fs (e :: rest) =
        dictInsertMany (dictInsert fs e.1 e.2) rest := rfl
    rw [step, dictInsert_fresh (fun f hf => hdisj e (List.mem_cons_self e rest) f hf)]
    rw [List.map_cons, List.nodup_cons] at hnd
    have hdisj' : ∀ x ∈ rest, ∀ f ∈ fs ++ [(e.1, e.2)], f.1 ≠ x.1 := by
      intro x hx f hf
      rcases List.mem_append.mp hf with hf | hf
      · exact hdisj x (List.mem_cons_of_mem e hx) f hf
      · rcases List.mem_singleton.mp hf with rfl
        intro hcontra
        exact hnd.1 (hcontra ▸ List.mem_map_of_mem Prod.fst hx)
    rw [ih hdisj' hnd.2, List.append_assoc]
    rfl

theorem scanFiles_response {content : String}
    {bs : List (String × List String × String)}
    (hlines : pySplitNl content = gResponseLines bs)
    (hwf : ∀ b ∈ bs, cleanPath b.1 = true ∧ (∀ l ∈ b.2.1, plainLine l = true) ∧
      closerLine b.2.2 = true)
    (hnd : (bs.map Prod.fst).Nodup) :
    scanFiles content = gBlockEntries bs := by
  unfold scanFiles
  rw [hlines, foldl_parseStep_response hwf]
  show dictInsertMany [] (gBlockEntries bs) = gBlockEntries bs
  have hndE : ((gBlockEntries bs).map Prod.fst).Nodup := by
    unfold gBlockEntries
    rw [List.map_map]
    have hsub : ((bs.filter (fun b => !b.2.1.isEmpty)).map
        (Prod.fst ∘ fun b => (b.1, joinNl b.2.1))).Sublist (bs.map Prod.fst) := by
      exact List.Sublist.map _ (List.filter_sublist bs)
    exact List.Nodup.sublist hsub hnd
  rw [dictInsertMany_fresh (fun e _ f hf => absurd hf (List.not_mem_nil f)) hndE]
  rfl

theorem parse_response {content feature_name : String}
    {context : AggregatedContext} {bs : List (String × List String × String)}
    (hlines : pySplitNl content = gResponseLines bs)
    (hwf : ∀ b ∈ bs, cleanPath b.1 = true ∧ (∀ l ∈ b.2.1, plainLine l = true) ∧
      closerLine b.2.2 = true)
    (hnd : (bs.map Prod.fst).Nodup)
    (hsome : ∃ b ∈ bs, b.2.1 ≠ []) :
    _parse_generated_content content feature_name context = gBlockEntries bs := by
  unfold _parse_generated_content
  rw [scanFiles_response hlines hwf hnd]
  obtain ⟨b, hb, hbne⟩ := hsome
  have : (b.1, joinNl b.2.1) ∈ gBlockEntries bs := by
    unfold gBlockEntries
    exact List.mem_map_of_mem _ (List.mem_filter.mpr ⟨hb, by simpa using hbne⟩)
  rw [if_neg (by
    intro hcontra
    rw [List.isEmpty_iff] at hcontra
    rw [hcontra] at this
    exact List.not_mem_nil _ this)]

set_option maxRecDepth 10000

theorem c3ResponseLines_eq_g (bs : List (String × List String)) :
    c3ResponseLines bs =
      gResponseLines (bs.map (fun b => (b.1, b.2, "```"))) := by
  unfold c3ResponseLines gResponseLines
  rw [List.map_map]
  rfl

/-- Claim C3, counterexample.  The claim asserts that a synthetic fenced
response with N distinct path markers, each block closed by a fence line,
always parses to exactly N entries.  The response below carries two
distinct path markers (`a.txt` with zero content lines, `b.txt` with one),
yet parsing returns a single entry: the parser drops a block whose content
list is empty. -/
theorem c3_roundtrip_counterexample :
    _parse_generated_content "```path:a.txt\n```\n```path:b.txt\nx\n```"
      "f" {} = [("b.txt", "x")] ∧
    ((pySplitNl "```path:a.txt\n```\n```path:b.txt\nx\n```").filter
      (fun l => isFileMarker l)).length = 2 := by
  constructor <;> decide

/-- Claim C3, amended: for every synthetic multi-file fenced response whose
blocks carry distinct clean path markers, whose content lines are plain
lines, and whose every block holds at least one content line, parsing
yields exactly N entries keyed by the exact paths, each valued by the
newline-join of the literal lines between the marker line and its closing
fence line, both excluded. -/
theorem c3_roundtrip_amended (content feature_name : String)
    (context : AggregatedContext) (bs : List (String × List String))
    (hlines : pySplitNl content = c3ResponseLines bs)
    (hwf : ∀ b ∈ bs, cleanPath b.1 = true ∧ (∀ l ∈ b.2, plainLine l = true) ∧
      b.2 ≠ [])
    (hnd : (bs.map Prod.fst).Nodup)
    (hne : bs ≠ []) :
    _parse_generated_content content feature_name context =
      bs.map (fun b => (b.1, joinNl b.2)) ∧
    (_parse_generated_content content feature_name context).length
      = bs.length := by
  have hlines' : pySplitNl content =
      gResponseLines (bs.map (fun b => (b.1, b.2, "```"))) := by
    rw [hlines, c3ResponseLines_eq_g]
  have hwf' : ∀ b ∈ bs.map (fun b => (b.1, b.2, "```")),
      cleanPath b.1 = true ∧ (∀ l ∈ b.2.1, plainLine l = true) ∧
      closerLine b.2.2 = true := by
    intro b hb
    obtain ⟨a, ha, rfl⟩ := List.mem_map.mp hb
    obtain ⟨h1, h2, _⟩ := hwf a ha
    refine ⟨h1, h2, ?_⟩
    show closerLine "```" = true
    decide
  have hnd' : ((bs.map (fun b => (b.1, b.2, "```"))).map Prod.fst).Nodup := by
    rw [List.map_map]
    exact hnd
  obtain ⟨b0, hb0⟩ := List.exists_mem_of_ne_nil bs hne
  have hsome : ∃ b ∈ bs.map (fun b => (b.1, b.2, "```")), b.2.1 ≠ [] :=
    ⟨(b0.1, b0.2, "```"), List.mem_map_of_mem _ hb0, (hwf b0 hb0).2.2⟩
  have hmain := @parse_response content feature_name context
    (bs.map (fun b => (b.1, b.2, "```"))) hlines' hwf' hnd' hsome
  have hentries : gBlockEntries (bs.map (fun b => (b.1, b.2, "```"))) =
      bs.map (fun b => (b.1, joinNl b.2)) := by
    unfold gBlockEntries
    rw [List.filter_map, List.map_map]
    have : bs.filter ((fun b => !b.2.1.isEmpty) ∘ (fun b => (b.1, b.2, "```")))
        = bs := by
      apply List.filter_eq_self.mpr
      intro a ha
      simpa using (hwf a ha).2.2
    rw [this]
    rfl
  rw [hmain, hentries]
  exact ⟨rfl, by rw [List.length_map]⟩

/-- Claim C3, witness for the amended theorem at a concrete two-block
response. -/
theorem c3_roundtrip_witness :
    _parse_generated_content
      "```path:a.txt\nhello\nworld\n```\n```path:b.txt\nx\n```" "f" {} =
      [("a.txt", "hello\nworld"), ("b.txt", "x")] :=
  (c3_roundtrip_amended
    "```path:a.txt\nhello\nworld\n```\n```path:b.txt\nx\n```" "f" {}
    [("a.txt", ["hello", "world"]), ("b.txt", ["x"])]
    (by decide) (by decide) (by decide) (by decide)).1

/-- Claim C7, counterexample.  The claim asserts that only a line that is
exactly the bare fence closer terminates an open file block, so that a
fence line carrying a language tag (here three backticks followed by
`java`) would be kept inside the content.  In the response below the block
for `a.txt` is followed by one content line, then such a tagged fence
line, then another line and a bare closer; under the claim the file content
would be the three lines up to the bare closer, but the code closes the
block at the tagged fence line and drops the rest, recording only `x`. -/
theorem c7_fence_close_counterexample :
    _parse_generated_content "```path:a.txt\nx\n```java\ny\n```" "f" {} =
      [("a.txt", "x")] ∧
    closerLine "```java" = true ∧
    "x" ≠ "x\n```java\ny" := by
  refine ⟨by decide, by decide, by decide⟩

/-- Claim C7, amended: while a file block is open, every line not starting
with the fence opener is accumulated into the content; the block is
terminated by the first line that starts with the fence opener and carries
no colon, whether or not it is the bare closer — such a line is excluded
from the content (and a fence line with a colon instead saves the block and
opens a new one).  Stated over synthetic responses whose nonempty blocks
are each closed by an arbitrary fence-no-colon line. -/
theorem c7_fence_close_amended (content feature_name : String)
    (context : AggregatedContext) (bs : List (String × List String × String))
    (hlines : pySplitNl content = gResponseLines bs)
    (hwf : ∀ b ∈ bs, cleanPath b.1 = true ∧ (∀ l ∈ b.2.1, plainLine l = true) ∧
      closerLine b.2.2 = true ∧ b.2.1 ≠ [])
    (hnd : (bs.map Prod.fst).Nodup)
    (hne : bs ≠ []) :
    _parse_generated_content content feature_name context =
      bs.map (fun b => (b.1, joinNl b.2.1)) := by
  have hwf' : ∀ b ∈ bs, cleanPath b.1 = true ∧
      (∀ l ∈ b.2.1, plainLine l = true) ∧ closerLine b.2.2 = true :=
    fun b hb => ⟨(hwf b hb).1, (hwf b hb).2.1, (hwf b hb).2.2.1⟩
  obtain ⟨b0, hb0⟩ := List.exists_mem_of_ne_nil bs hne
  have hmain := @parse_response content feature_name context bs hlines hwf' hnd
    ⟨b0, hb0, (hwf b0 hb0).2.2.2⟩
  rw [hmain]
  unfold gBlockEntries
  rw [List.filter_eq_self.mpr (fun a ha => by simpa using (hwf a ha).2.2.2)]

/-- Claim C7, witness for the amended theorem: a block closed by a tagged
fence line (three backticks and `java`); the tagged line is excluded from
the recorded content. -/
theorem c7_fence_close_witness :
    _parse_generated_content "```path:a.txt\nu\nv\n```java" "f" {} =
      [("a.txt", "u\nv")] :=
  c7_fence_close_amended "```path:a.txt\nu\nv\n```java" "f" {}
    [("a.txt", ["u", "v"], "```java")]
    (by decide) (by decide) (by decide) (by decide)

/-- Claim C9, counterexample.  The claim asserts that, on every input, a
path marker whose block holds zero content lines yields no entry in the
returned FileSet.  For the input below the single marker carries the path
`pom.xml` and its block is empty; the scan then records no file at all, the
parser falls back to the default skeleton, and the returned FileSet does
contain an entry keyed `pom.xml` (the skeleton build descriptor). -/
theorem c9_empty_block_counterexample :
    scanFiles "```path:pom.xml\n```" = [] ∧
    ((pySplitNl "```path:pom.xml\n```").filter
      (fun l => isFileMarker l)).length = 1 ∧
    "pom.xml" ∈ (_parse_generated_content "```path:pom.xml\n```" "f" {}).map
      Prod.fst := by
  refine ⟨by decide, by decide, by decide⟩

/-- Claim C9, amended: a path marker whose block holds zero content lines
yields no record from the line scan; provided at least one block of the
response holds content (so the default-skeleton fallback is not taken), the
returned FileSet is exactly the entries of the nonempty blocks — the path
of every empty block is absent from its keys, and the FileSet has strictly
fewer entries than there are path markers whenever some block is empty. -/
theorem c9_empty_block_amended (content feature_name : String)
    (context : AggregatedContext) (bs : List (String × List String × String))
    (hlines : pySplitNl content = gResponseLines bs)
    (hwf : ∀ b ∈ bs, cleanPath b.1 = true ∧ (∀ l ∈ b.2.1, plainLine l = true) ∧
      closerLine b.2.2 = true)
    (hnd : (bs.map Prod.fst).Nodup)
    (hsome : ∃ b ∈ bs, b.2.1 ≠ []) :
    _parse_generated_content content feature_name context =
      gBlockEntries bs ∧
    (∀ b ∈ bs, b.2.1 = [] →
      b.1 ∉ (_parse_generated_content content feature_name context).map
        Prod.fst) ∧
    ((∃ b ∈ bs, b.2.1 = []) →
      (_parse_generated_content content feature_name context).length
        < bs.length) := by
  have hmain := @parse_response content feature_name context bs hlines hwf hnd
    hsome
  refine ⟨hmain, ?_, ?_⟩
  · intro b hb hbe hmem
    rw [hmain] at hmem
    unfold gBlockEntries at hmem
    rw [List.map_map] at hmem
    obtain ⟨b', hb', hfst⟩ := List.mem_map.mp hmem
    have hb'bs := List.mem_of_mem_filter hb'
    have hb'ne : b'.2.1 ≠ [] := by
      have := List.of_mem_filter hb'
      simpa using this
    have : b' = b :=
      List.inj_on_of_nodup_map hnd hb'bs hb
        (show Prod.fst b' = Prod.fst b by simpa using hfst)
    exact hb'ne (this ▸ hbe)
  · intro ⟨b, hb, hbe⟩
    rw [hmain]
    unfold gBlockEntries
    rw [List.length_map]
    exact List.length_filter_lt_length_iff_exists.mpr ⟨b, hb, by simp [hbe]⟩

/-- Claim C9, witness for the amended theorem: a response with one empty
and one nonempty block parses to the single entry of the nonempty block,
the empty block path `a.txt` is absent, and one entry is fewer than two
markers. -/
theorem c9_empty_block_witness :
    _parse_generated_content "```path:a.txt\n```\n```path:b.txt\nz\n```"
      "g" {} = [("b.txt", "z")] ∧
    "a.txt" ∉ (_parse_generated_content
      "```path:a.txt\n```\n```path:b.txt\nz\n```" "g" {}).map Prod.fst ∧
    (_parse_generated_content "```path:a.txt\n```\n```path:b.txt\nz\n```"
      "g" {}).length < 2 := by
  have h := c9_empty_block_amended
    "```path:a.txt\n```\n```path:b.txt\nz\n```" "g" {}
    [("a.txt", [], "```"), ("b.txt", ["z"], "```")]
    (by decide) (by decide) (by decide)
    ⟨("b.txt", ["z"], "```"), by decide⟩
  refine ⟨?_, ?_, ?_⟩
  · rw [h.1]; decide
  · exact h.2.1 ("a.txt", [], "```") (by decide) rfl
  · exact h.2.2 ⟨("a.txt", [], "```"), by decide⟩

theorem scanFiles_no_marker {content : String}
    (h : ∀ l ∈ pySplitNl content, isFileMarker l = false) :
    scanFiles content = [] := by
  unfold scanFiles
  rw [foldl_parseStep_closed h]
  rfl

/-- Claim C2: a raw response in which no line is a file marker (no line both
starts with the fence opener and carries a colon) parses to the default
fixed project skeleton — a non-empty, deterministic mapping keyed by the
seven skeleton paths — never to an empty FileSet. -/
theorem c2_no_markers_default_skeleton (content feature_name : String)
    (context : AggregatedContext)
    (h : ∀ l ∈ pySplitNl content, isFileMarker l = false) :
    _parse_generated_content content feature_name context =
      _create_default_test_structure feature_name content context ∧
    _parse_generated_content content feature_name context ≠ [] ∧
    (_parse_generated_content content feature_name context).map Prod.fst =
      ["pom.xml", "src/test/java/TestRunner.java",
       "src/test/java/pages/BasePage.java",
       "src/test/java/stepdefinitions/" ++ normalizeFeatureName feature_name
         ++ "_steps.java",
       "src/test/resources/features/" ++ normalizeFeatureName feature_name
         ++ ".feature",
       "src/test/resources/config.properties", "README.md"] := by
  have hparse : _parse_generated_content content feature_name context =
      _create_default_test_structure feature_name content context := by
    unfold _parse_generated_content
    rw [scanFiles_no_marker h]
    rfl
  refine ⟨hparse, ?_, ?_⟩
  · rw [hparse]
    unfold _create_default_test_structure
    simp
  · rw [hparse]
    unfold _create_default_test_structure
    rfl

/-- Claim C2, witness: a prose-only response for the feature `My Feat`
yields exactly the seven skeleton keys. -/
theorem c2_no_markers_witness :
    (_parse_generated_content "just prose with no fenced blocks at all"
      "My Feat" {}).map Prod.fst =
      ["pom.xml", "src/test/java/TestRunner.java",
       "src/test/java/pages/BasePage.java",
       "src/test/java/stepdefinitions/my_feat_steps.java",
       "src/test/resources/features/my_feat.feature",
       "src/test/resources/config.properties", "README.md"] := by
  have h := (c2_no_markers_default_skeleton
    "just prose with no fenced blocks at all" "My Feat" {} (by decide)).2.2
  rw [h]
  decide

theorem criteriaGo_true (ls : List String) :
    criteriaGo ls true = criteriaCollect (ls.map pyStrip) := by
  induction ls with
  | nil => rfl
  | cons l rest ih =>
    rw [List.map_cons]
    show (if strContainsSub (pyStrip l) "Acceptance Criteria" = true then
        criteriaGo rest true
      else if true = true then
        if bulletLine (pyStrip l) = true then pyStrip l :: criteriaGo rest true
        else if (pyStrip l == "") = true then criteriaGo rest true
        else []
      else criteriaGo rest false) =
      (if strContainsSub (pyStrip l) "Acceptance Criteria" = true then
        criteriaCollect (rest.map pyStrip)
      else if bulletLine (pyStrip l) = true then
        pyStrip l :: criteriaCollect (rest.map pyStrip)
      else if (pyStrip l == "") = true then criteriaCollect (rest.map pyStrip)
      else [])
    by_cases hm : strContainsSub (pyStrip l) "Acceptance Criteria" = true
    · rw [if_pos hm, if_pos hm, ih]
    · rw [if_neg hm, if_neg hm, if_pos rfl]
      by_cases hb : bulletLine (pyStrip l) = true
      · rw [if_pos hb, if_pos hb, ih]
      · rw [if_neg hb, if_neg hb]
        by_cases he : (pyStrip l == "") = true
        · rw [if_pos he, if_pos he, ih]
        · rw [if_neg he, if_neg he]

theorem criteriaGo_false (ls : List String) :
    criteriaGo ls false = criteriaCollect (criteriaRegion (ls.map pyStrip)) := by
  induction ls with
  | nil => rfl
  | cons l rest ih =>
    unfold criteriaGo criteriaRegion
    rw [List.map_cons]
    by_cases hm : strContainsSub (pyStrip l) "Acceptance Criteria" = true
    · simp only [hm, if_true]
      exact criteriaGo_true rest
    · simp only [hm, Bool.false_eq_true, if_false]
      exact ih

/-- Claim C4, counterexample.  The claim asserts that extraction collects,
verbatim, exactly the lines that start with a bullet marker, stopping at
the first non-blank non-bullet line after the marker.  Both parts fail:
the line `  - a` does not start with a bullet marker (it starts with
whitespace), yet the code strips each line first and collects the stripped
text `- a`, which is not the verbatim line; and a later line containing
`Acceptance Criteria` is a non-blank non-bullet line, yet the code skips it
instead of terminating, collecting `- b` after it. -/
theorem c4_criteria_counterexample :
    _extract_acceptance_criteria "Acceptance Criteria\n  - a" = ["- a"] ∧
    "- a" ≠ "  - a" ∧ (["- a"] : List String) ≠ [] ∧
    _extract_acceptance_criteria
      "Acceptance Criteria\n- a\nAcceptance Criteria again\n- b" =
      ["- a", "- b"] := by
  refine ⟨by decide, by decide, by decide, by decide⟩

/-- Claim C4, amended: extraction strips every line of surrounding
whitespace, and returns exactly the stripped lines that, after the first
line containing the marker, start with a bullet marker or numbered-list
prefix — skipping blank lines and lines containing the marker (which never
terminate), and stopping at the first other line.  This is witnessed by the
equivalence with the declarative `criteriaSpec` staging, and the specific
example of the claim still holds: the description
`"Acceptance Criteria\n- a\n- b\n\nNext Section\nc"` yields exactly
`["- a", "- b"]`. -/
theorem c4_criteria_amended (description : String) :
    _extract_acceptance_criteria description = criteriaSpec description ∧
    _extract_acceptance_criteria
      "Acceptance Criteria\n- a\n- b\n\nNext Section\nc" = ["- a", "- b"] := by
  constructor
  · unfold _extract_acceptance_criteria criteriaSpec
    exact criteriaGo_false (pySplitNl description)
  · decide

/-- Claim C5: scenario selection is an ordered chain of substring tests on
the lowered feature name with first-match-wins precedence — search before
login/signin/auth, before register/signup/sign up, before
checkout/cart/purchase, before the generic template.  In particular the
feature name `User Login Flow` (normalized and lowered, as the fallback
generator passes it) selects the authentication template and not the
generic one, and a lowered name containing both `search` and `login`
selects the search template. -/
theorem c5_scenario_precedence
    (feature_name feature_lower base_url page_title : String) :
    (strContainsSub feature_lower "search" = true →
      _generate_intelligent_scenarios feature_name feature_lower base_url
        page_title =
      (if strContainsSub (pyLower base_url) "google" then
        googleSearchScenarios (searchTermOf feature_name) base_url
      else genericSearchScenarios (searchTermOf feature_name) base_url)) ∧
    (strContainsSub feature_lower "search" = false →
     (strContainsSub feature_lower "login" ||
      strContainsSub feature_lower "signin" ||
      strContainsSub feature_lower "auth") = true →
      _generate_intelligent_scenarios feature_name feature_lower base_url
        page_title = authScenarios base_url) ∧
    (strContainsSub feature_lower "search" = false →
     (strContainsSub feature_lower "login" ||
      strContainsSub feature_lower "signin" ||
      strContainsSub feature_lower "auth") = false →
     (strContainsSub feature_lower "register" ||
      strContainsSub feature_lower "signup" ||
      strContainsSub feature_lower "sign up") = true →
      _generate_intelligent_scenarios feature_name feature_lower base_url
        page_title = registrationScenarios base_url) ∧
    (strContainsSub feature_lower "search" = false →
     (strContainsSub feature_lower "login" ||
      strContainsSub feature_lower "signin" ||
      strContainsSub feature_lower "auth") = false →
     (strContainsSub feature_lower "register" ||
      strContainsSub feature_lower "signup" ||
      strContainsSub feature_lower "sign up") = false →
     (strContainsSub feature_lower "checkout" ||
      strContainsSub feature_lower "cart" ||
      strContainsSub feature_lower "purchase") = true →
      _generate_intelligent_scenarios feature_name feature_lower base_url
        page_title = checkoutScenarios base_url) ∧
    (strContainsSub feature_lower "search" = false →
     (strContainsSub feature_lower "login" ||
      strContainsSub feature_lower "signin" ||
      strContainsSub feature_lower "auth") = false →
     (strContainsSub feature_lower "register" ||
      strContainsSub feature_lower "signup" ||
      strContainsSub feature_lower "sign up") = false →
     (strContainsSub feature_lower "checkout" ||
      strContainsSub feature_lower "cart" ||
      strContainsSub feature_lower "purchase") = false →
      _generate_intelligent_scenarios feature_name feature_lower base_url
        page_title = genericScenarios feature_name base_url) ∧
    _generate_intelligent_scenarios feature_name
      (pyLower (normalizeFeatureName "User Login Flow")) base_url page_title
      = authScenarios base_url ∧
    authScenarios "https://example.com" ≠
      genericScenarios "user_login_flow" "https://example.com" ∧
    (strContainsSub feature_lower "search" = true →
     strContainsSub feature_lower "login" = true →
      _generate_intelligent_scenarios feature_name feature_lower base_url
        page_title =
      (if strContainsSub (pyLower base_url) "google" then
        googleSearchScenarios (searchTermOf feature_name) base_url
      else genericSearchScenarios (searchTermOf feature_name) base_url)) := by
  refine ⟨?_, ?_, ?_, ?_, ?_, ?_, ?_, ?_⟩
  · intro hs
    unfold _generate_intelligent_scenarios
    rw [if_pos hs]
  · intro hs ha
    unfold _generate_intelligent_scenarios
    rw [if_neg (by simp [hs]), if_pos ha]
  · intro hs ha hr
    unfold _generate_intelligent_scenarios
    rw [if_neg (by simp [hs]), if_neg (by simp [ha]), if_pos hr]
  · intro hs ha hr hc
    unfold _generate_intelligent_scenarios
    rw [if_neg (by simp [hs]), if_neg (by simp [ha]), if_neg (by simp [hr]),
      if_pos hc]
  · intro hs ha hr hc
    unfold _generate_intelligent_scenarios
    rw [if_neg (by simp [hs]), if_neg (by simp [ha]), if_neg (by simp [hr]),
      if_neg (by simp [hc])]
  · unfold _generate_intelligent_scenarios
    rw [if_neg (by decide), if_pos (by decide)]
  · decide
  · intro hs _
    unfold _generate_intelligent_scenarios
    rw [if_pos hs]

/-- Claim C5, witness: the lowered name `product_search_login` contains
both `search` and `login`; the search template (generic flavour, the url
has no `google`) is selected. -/
theorem c5_scenario_precedence_witness :
    _generate_intelligent_scenarios "product_search_login"
      "product_search_login" "https://shop.example.com" "t" =
      genericSearchScenarios (searchTermOf "product_search_login")
        "https://shop.example.com" := by
  have h := (c5_scenario_precedence "product_search_login"
    "product_search_login" "https://shop.example.com" "t").2.2.2.2.2.2.2
    (by decide) (by decide)
  rw [h, if_neg (by decide)]

theorem firstUrlSource_eq_find (l : List ContextSource) :
    firstUrlSource l =
      l.find? (fun s => s.type == some "url" && optStrTruthy (sourceUrl s)) := by
  induction l with
  | nil => rfl
  | cons s rest ih =>
    unfold firstUrlSource
    by_cases hp : (s.type == some "url" && optStrTruthy (sourceUrl s)) = true
    · rw [if_pos hp, List.find?_cons, hp]
    · have hp' : (s.type == some "url" && optStrTruthy (sourceUrl s)) = false := by
        simpa using hp
      rw [if_neg hp, List.find?_cons, hp', ih]

/-- Claim C6, counterexample.  The claim asserts the Google-specific search
template is emitted exactly when the host of the resolved base url contains
`google`.  With the single url source `https://example.com/google` the host
is `example.com`, which does not contain `google`, yet the code tests the
whole lowered url string and emits the Google-specific template. -/
theorem c6_google_host_counterexample :
    resolveBaseUrl ⟨[], [⟨some "url",
        some ⟨some "https://example.com/google", some "T"⟩⟩]⟩ =
      "https://example.com/google" ∧
    strContainsSub "example.com" "google" = false ∧
    _generate_intelligent_scenarios "product_search" "product_search"
      (resolveBaseUrl ⟨[], [⟨some "url",
        some ⟨some "https://example.com/google", some "T"⟩⟩]⟩) "T" =
      googleSearchScenarios (searchTermOf "product_search")
        "https://example.com/google" ∧
    strContainsSub (_get_default_feature_file "product_search" ""
      ⟨[], [⟨some "url", some ⟨some "https://example.com/google", some "T"⟩⟩]⟩)
      "Google search box" = true := by
  refine ⟨by decide, by decide, ?_, by decide⟩
  show _generate_intelligent_scenarios "product_search" "product_search"
    "https://example.com/google" "T" = _
  unfold _generate_intelligent_scenarios
  rw [if_pos (by decide), if_pos (by decide)]

/-- Claim C6, amended: when the lowered feature name contains `search`, the
fallback feature file wraps the Google-specific search template exactly
when the lowered resolved base url (the whole url string, not its host)
contains `google`, and the generic search template otherwise; the resolved
base url is the url of the first url-typed context source bearing a truthy
url value in iteration order, defaulting to `https://example.com` when no
such source exists. -/
theorem c6_google_template_amended (feature_name content : String)
    (ctx : AggregatedContext)
    (hs : strContainsSub (pyLower feature_name) "search" = true) :
    (_get_default_feature_file feature_name content ctx =
      "Feature: " ++ pyTitle (pyReplaceChar feature_name uscore blankc) ++
      "\n" ++ "  As a user\n" ++ "  I want to " ++
      pyLower (pyReplaceChar feature_name uscore blankc) ++ "\n" ++
      "  So that I can find relevant results\n" ++ "\n" ++
      (if strContainsSub (pyLower (resolveBaseUrl ctx)) "google" then
        googleSearchScenarios (searchTermOf feature_name) (resolveBaseUrl ctx)
      else
        genericSearchScenarios (searchTermOf feature_name)
          (resolveBaseUrl ctx)) ++ "\n") ∧
    resolveBaseUrl ctx =
      (match ctx.context_sources.find?
          (fun s => s.type == some "url" && optStrTruthy (sourceUrl s)) with
        | some s => (sourceUrl s).getD ""
        | none => "https://example.com") ∧
    (ctx.context_sources = [] → resolveBaseUrl ctx = "https://example.com") := by
  refine ⟨?_, ?_, ?_⟩
  · unfold _get_default_feature_file _generate_intelligent_scenarios
    simp only [hs, if_true]
    rfl
  · unfold resolveBaseUrl
    rw [firstUrlSource_eq_find]
  · intro h
    unfold resolveBaseUrl
    rw [h]
    rfl

/-- Claim C6, witness for the amended theorem: a search feature over a
non-Google url takes the generic search template and the resolved base url
is the url of the first truthy url source. -/
theorem c6_google_template_witness :
    _get_default_feature_file "product_search" ""
      ⟨[], [⟨some "jira", none⟩,
        ⟨some "url", some ⟨some "https://shop.example.com", none⟩⟩]⟩ =
      "Feature: " ++ pyTitle (pyReplaceChar "product_search" uscore blankc) ++
      "\n" ++ "  As a user\n" ++ "  I want to " ++
      pyLower (pyReplaceChar "product_search" uscore blankc) ++ "\n" ++
      "  So that I can find relevant results\n" ++ "\n" ++
      genericSearchScenarios (searchTermOf "product_search")
        "https://shop.example.com" ++ "\n" := by
  have h := (c6_google_template_amended "product_search" ""
    ⟨[], [⟨some "jira", none⟩,
      ⟨some "url", some ⟨some "https://shop.example.com", none⟩⟩]⟩
    (by decide)).1
  rw [h]
  have hurl : resolveBaseUrl ⟨[], [⟨some "jira", none⟩,
      ⟨some "url", some ⟨some "https://shop.example.com", none⟩⟩]⟩ =
      "https://shop.example.com" := by decide
  rw [hurl, if_neg (by decide)]

theorem charLe_toNat (a b : Char) : a ≤ b ↔ a.toNat ≤ b.toNat := by
  rw [Char.le_def, UInt32.le_def]
  rfl

theorem charToNat_inj {a b : Char} (h : a.toNat = b.toNat) : a = b :=
  Char.ext (UInt32.ext h)

theorem charOfNat_toNat {n : Nat} (h : n < 55296) : (Char.ofNat n).toNat = n := by
  unfold Char.ofNat
  rw [dif_pos (Or.inl h)]
  unfold Char.ofNatAux Char.toNat
  simp [UInt32.toNat, BitVec.toNat_ofNatLt]

theorem pyIsAlnum_iff {c : Char} : pyIsAlnum c = true ↔
    (48 ≤ c.toNat ∧ c.toNat ≤ 57) ∨ (65 ≤ c.toNat ∧ c.toNat ≤ 90) ∨
    (97 ≤ c.toNat ∧ c.toNat ≤ 122) := by
  unfold pyIsAlnum
  simp only [Bool.or_eq_true, Bool.and_eq_true, decide_eq_true_eq, charLe_toNat,
    show ('0' : Char).toNat = 48 from rfl, show ('9' : Char).toNat = 57 from rfl,
    show ('A' : Char).toNat = 65 from rfl, show ('Z' : Char).toNat = 90 from rfl,
    show ('a' : Char).toNat = 97 from rfl, show ('z' : Char).toNat = 122 from rfl]
  omega

theorem char_eq_iff_toNat {c : Char} {d : Char} : c = d ↔ c.toNat = d.toNat :=
  ⟨fun h => h ▸ rfl, charToNat_inj⟩

theorem beq_char_iff {c d : Char} : (c == d) = true ↔ c.toNat = d.toNat := by
  rw [beq_iff_eq]
  exact char_eq_iff_toNat

theorem pyToLower_toNat (c : Char) :
    (pyToLower c).toNat =
      if 65 ≤ c.toNat ∧ c.toNat ≤ 90 then c.toNat + 32 else c.toNat := by
  unfold pyToLower
  by_cases h : 65 ≤ c.toNat ∧ c.toNat ≤ 90
  · rw [if_pos h, if_pos (by
      simp only [Bool.and_eq_true, decide_eq_true_eq, charLe_toNat,
        show ('A' : Char).toNat = 65 from rfl, show ('Z' : Char).toNat = 90 from rfl]
      exact h)]
    exact charOfNat_toNat (by omega)
  · rw [if_neg h, if_neg (by
      simp only [Bool.and_eq_true, decide_eq_true_eq, charLe_toNat,
        show ('A' : Char).toNat = 65 from rfl, show ('Z' : Char).toNat = 90 from rfl]
      exact h)]

theorem charWs_of_toNat {c : Char}
    (h : c.toNat ≠ 32 ∧ c.toNat ≠ 9 ∧ c.toNat ≠ 13 ∧ c.toNat ≠ 10) :
    c.isWhitespace = false := by
  unfold Char.isWhitespace
  simp only [Bool.or_eq_false_iff, decide_eq_false_iff_not]
  refine ⟨⟨⟨fun hc => h.1 (by rw [hc]; rfl), fun hc => h.2.1 (by rw [hc]; rfl)⟩,
    fun hc => h.2.2.1 (by rw [hc]; rfl)⟩, fun hc => h.2.2.2 (by rw [hc]; rfl)⟩

theorem normStep_toNat {c : Char}
    (h : (pyIsAlnum c || c == ' ' || c == '-' || c == '_') = true) :
    (48 ≤ (pyToLower (if c == ' ' then '_' else c)).toNat ∧
      (pyToLower (if c == ' ' then '_' else c)).toNat ≤ 57) ∨
    (97 ≤ (pyToLower (if c == ' ' then '_' else c)).toNat ∧
      (pyToLower (if c == ' ' then '_' else c)).toNat ≤ 122) ∨
    (pyToLower (if c == ' ' then '_' else c)).toNat = 45 ∨
    (pyToLower (if c == ' ' then '_' else c)).toNat = 95 := by
  have hm : (if c == ' ' then '_' else c).toNat =
      if c.toNat = 32 then 95 else c.toNat := by
    by_cases hsp : (c == ' ') = true
    · have h32 : c.toNat = 32 := by
        have := beq_char_iff.mp hsp
        simpa using this
      rw [if_pos hsp, if_pos h32]
      rfl
    · have h32 : ¬c.toNat = 32 := by
        intro hc
        exact (by simpa using hsp : ¬c = ' ')
          (charToNat_inj (by simpa using hc))
      rw [if_neg (by simpa using hsp), if_neg h32]
  rw [pyToLower_toNat, hm]
  simp only [Bool.or_eq_true, beq_char_iff, pyIsAlnum_iff,
    show (' ' : Char).toNat = 32 from rfl, show ('-' : Char).toNat = 45 from rfl,
    show ('_' : Char).toNat = 95 from rfl] at h
  split <;> split <;> omega

theorem normStep_char_props {c : Char}
    (h : (pyIsAlnum c || c == ' ' || c == '-' || c == '_') = true) :
    (pyIsAlnum (pyToLower (if c == ' ' then '_' else c)) ||
     pyToLower (if c == ' ' then '_' else c) == ' ' ||
     pyToLower (if c == ' ' then '_' else c) == '-' ||
     pyToLower (if c == ' ' then '_' else c) == '_') = true ∧
    (pyToLower (if c == ' ' then '_' else c)).isWhitespace = false ∧
    (pyToLower (if c == ' ' then '_' else c) == ' ') = false ∧
    pyToLower (pyToLower (if c == ' ' then '_' else c)) =
      pyToLower (if c == ' ' then '_' else c) ∧
    pyToLower (if c == ' ' then '_' else c) ≠ ':' ∧
    pyToLower (if c == ' ' then '_' else c) ≠ '`' ∧
    pyToLower (if c == ' ' then '_' else c) ≠ '\n' := by
  have hd := normStep_toNat h
  generalize pyToLower (if c == ' ' then '_' else c) = d at hd ⊢
  refine ⟨?_, ?_, ?_, ?_, ?_, ?_, ?_⟩
  · simp only [Bool.or_eq_true, beq_char_iff, pyIsAlnum_iff,
      show (' ' : Char).toNat = 32 from rfl,
      show ('-' : Char).toNat = 45 from rfl,
      show ('_' : Char).toNat = 95 from rfl]
    omega
  · exact charWs_of_toNat (by omega)
  · simp only [Bool.eq_false_iff, ne_eq, beq_char_iff,
      show (' ' : Char).toNat = 32 from rfl]
    omega
  · apply charToNat_inj
    rw [pyToLower_toNat, if_neg (by omega)]
  · intro hc
    have := congrArg Char.toNat hc
    rw [show (':' : Char).toNat = 58 from rfl] at this
    omega
  · intro hc
    have := congrArg Char.toNat hc
    rw [show ('`' : Char).toNat = 96 from rfl] at this
    omega
  · intro hc
    have := congrArg Char.toNat hc
    rw [show ('\n' : Char).toNat = 10 from rfl] at this
    omega

theorem map_id_of_mem {α : Type} {f : α → α} {l : List α}
    (h : ∀ a ∈ l, f a = a) : l.map f = l := by
  induction l with
  | nil => rfl
  | cons a rest ih =>
    rw [List.map_cons, h a (List.mem_cons_self a rest),
      ih (fun x hx => h x (List.mem_cons_of_mem a hx))]

theorem normalizeFeatureName_chars {x : String} {d : Char}
    (hd : d ∈ (normalizeFeatureName x).data) :
    (pyIsAlnum d || d == ' ' || d == '-' || d == '_') = true ∧
    d.isWhitespace = false ∧ (d == ' ') = false ∧ pyToLower d = d ∧
    d ≠ ':' ∧ d ≠ '`' ∧ d ≠ '\n' := by
  unfold normalizeFeatureName at hd
  rw [data_mk] at hd
  obtain ⟨e, he, rfl⟩ := List.mem_map.mp hd
  obtain ⟨c, hc, rfl⟩ := List.mem_map.mp he
  have hkeep : (pyIsAlnum c || c == ' ' || c == '-' || c == '_') = true := by
    have hsub : c ∈ x.data.filter
        (fun c => pyIsAlnum c || c == ' ' || c == '-' || c == '_') := by
      unfold rstripData at hc
      have h1 := List.mem_reverse.mp hc
      have h2 := (List.dropWhile_sublist (l := (x.data.filter
        (fun c => pyIsAlnum c || c == ' ' || c == '-' || c == '_')).reverse)
        (p := Char.isWhitespace)).subset h1
      exact List.mem_reverse.mp h2
    exact (List.mem_filter.mp hsub).2
  exact normStep_char_props hkeep

/-- The ASCII-restricted normalization is idempotent: its output consists
of kept, non-whitespace, non-space, lowercase-fixed characters, so each of
the four stages is the identity on it. -/
theorem normalizeFeatureName_idem (x : String) :
    normalizeFeatureName (normalizeFeatureName x) = normalizeFeatureName x := by
  have hprops := fun d (hd : d ∈ (normalizeFeatureName x).data) =>
    normalizeFeatureName_chars hd
  conv_lhs => rw [normalizeFeatureName]
  rw [List.filter_eq_self.mpr (fun d hd => (hprops d hd).1),
    rstripData_eq_of_all (fun d hd => (hprops d hd).2.1)]
  have hsp : (normalizeFeatureName x).data.map
      (fun c => if c == ' ' then '_' else c) = (normalizeFeatureName x).data :=
    map_id_of_mem (fun d hd =>
      if_neg (by simp [(hprops d hd).2.2.1]))
  rw [hsp, map_id_of_mem (fun d hd => (hprops d hd).2.2.2.1), mk_data]

theorem pyIsAlnumU_ascii {c : Char} (h : c.toNat < 128) :
    pyIsAlnumU c = pyIsAlnum c := by
  unfold pyIsAlnumU
  have h304 : (c.toNat == 304) = false := by
    simp only [beq_eq_false_iff_ne]
    omega
  rw [h304, Bool.or_false]

theorem pyLowerCharU_ascii {c : Char} (h : c.toNat < 128) :
    pyLowerCharU c = [pyToLower c] := by
  unfold pyLowerCharU pyToLower
  by_cases hc : ('A' ≤ c && c ≤ 'Z') = true
  · rw [if_pos hc, if_pos hc]
  · rw [if_neg hc, if_neg hc, if_neg (by simp only [beq_iff_eq]; omega)]

theorem flatMap_eq_map {α β : Type} {f : α → List β} {g : α → β}
    {l : List α} (h : ∀ a ∈ l, f a = [g a]) : l.flatMap f = l.map g := by
  induction l with
  | nil => rfl
  | cons a rest ih =>
    rw [List.flatMap_cons, h a (List.mem_cons_self a rest),
      ih (fun x hx => h x (List.mem_cons_of_mem a hx)), List.map_cons]
    rfl

theorem mem_of_mem_rstripData {c : Char} {l : List Char}
    (h : c ∈ rstripData l) : c ∈ l := by
  unfold rstripData at h
  have h1 := List.mem_reverse.mp h
  have h2 := (List.dropWhile_sublist (l := l.reverse)
    (p := Char.isWhitespace)).subset h1
  exact List.mem_reverse.mp h2

/-- On a string of ASCII characters the unicode-aware normalization
coincides with the ASCII-restricted one. -/
theorem normalizeFeatureNameU_ascii {x : String}
    (h : ∀ c ∈ x.data, c.toNat < 128) :
    normalizeFeatureNameU x = normalizeFeatureName x := by
  unfold normalizeFeatureNameU normalizeFeatureName
  rw [List.filter_congr (fun c hc => by
    rw [pyIsAlnumU_ascii (h c hc)])]
  refine congrArg String.mk (flatMap_eq_map ?_)
  intro d hd
  obtain ⟨c, hc, rfl⟩ := List.mem_map.mp hd
  have hcx : c.toNat < 128 :=
    h c (List.mem_filter.mp (mem_of_mem_rstripData hc)).1
  by_cases hsp : (c == ' ') = true
  · rw [if_pos hsp]
    exact pyLowerCharU_ascii (by decide)
  · rw [if_neg hsp]
    exact pyLowerCharU_ascii hcx

/-- Every character of a normalized ASCII-restricted output is ASCII: the
kept alphabet is digits, letters, space, hyphen, underscore, all below
code point 128, and the later stages stay inside it. -/
theorem normalizeFeatureName_ascii {x : String} :
    ∀ d ∈ (normalizeFeatureName x).data, d.toNat < 128 := by
  intro d hd
  have h1 := (normalizeFeatureName_chars hd).1
  simp only [Bool.or_eq_true, beq_char_iff, pyIsAlnum_iff,
    show (' ' : Char).toNat = 32 from rfl,
    show ('-' : Char).toNat = 45 from rfl,
    show ('_' : Char).toNat = 95 from rfl] at h1
  rcases h1 with (((h1 | h1 | h1) | h1) | h1) | h1 <;> omega

/-- Claim C8, counterexample: with Python's unicode-aware
`isalnum`/`lower`, the normalization is not idempotent.  `İ` (U+0130)
survives the filter and lowers to `i` followed by the combining dot
U+0307; the combining mark is not alphanumeric, so the second pass filters
it out and normalizing twice yields plain `i`. -/
theorem c8_normalize_counterexample :
    normalizeFeatureNameU (String.mk [Char.ofNat 304]) =
      String.mk [Char.ofNat 105, Char.ofNat 775] ∧
    normalizeFeatureNameU (normalizeFeatureNameU (String.mk [Char.ofNat 304])) =
      String.mk [Char.ofNat 105] ∧
    normalizeFeatureNameU (normalizeFeatureNameU (String.mk [Char.ofNat 304])) ≠
      normalizeFeatureNameU (String.mk [Char.ofNat 304]) := by
  refine ⟨?_, ?_, ?_⟩ <;> decide

/-- Claim C8, amended: on strings of ASCII characters — where Python's
`isalnum` and `lower` coincide with their ASCII tables — the feature-name
normalization is idempotent; the unicode counterexample above shows the
restriction is necessary. -/
theorem c8_normalize_amended (x : String)
    (h : ∀ c ∈ x.data, c.toNat < 128) :
    normalizeFeatureNameU (normalizeFeatureNameU x) =
      normalizeFeatureNameU x := by
  rw [normalizeFeatureNameU_ascii h,
    normalizeFeatureNameU_ascii normalizeFeatureName_ascii]
  exact normalizeFeatureName_idem x

/-- Claim C8, witness: the ASCII string `User Login` satisfies the
hypothesis and its normalization is idempotent. -/
theorem c8_normalize_witness :
    (∀ c ∈ ("User Login" : String).data, c.toNat < 128) ∧
    normalizeFeatureNameU (normalizeFeatureNameU "User Login") =
      normalizeFeatureNameU "User Login" :=
  ⟨by decide, c8_normalize_amended "User Login" (by decide)⟩

/-- Claim C1: when the provider selected by `config.llm_provider` (default
`openai`) has a usable client and its completion call raises, the error is
caught and `generate_tests` returns exactly the FileSet of the
Mock/Fallback path — the parse of the mock content — which is also what a
run without any usable client returns for the same inputs; no error
propagates (the embedding is a total function into FileSets). -/
theorem c1_provider_error_falls_back (feature_name : String)
    (context : AggregatedContext) (config : GenerationConfig)
    (openai_client anthropic_client : Bool) (msg : String)
    (h : (config.llm_provider.getD "openai" = "openai" ∧ openai_client = true) ∨
         (config.llm_provider.getD "openai" = "anthropic" ∧
           anthropic_client = true)) :
    generate_tests feature_name context config openai_client anthropic_client
      (.err msg) =
      _parse_generated_content
        (_generate_mock_content feature_name context config)
        feature_name context ∧
    generate_tests feature_name context config openai_client anthropic_client
      (.err msg) =
      generate_tests feature_name context config false false (.err msg) := by
  rcases h with ⟨hp, hc⟩ | ⟨hp, hc⟩ <;>
    subst hc <;>
    unfold generate_tests <;>
    rw [hp] <;>
    constructor <;>
    rfl

/-- Claim C1, witness: an OpenAI-selected configuration with a usable
client whose call errors yields the parse of the mock content. -/
theorem c1_provider_error_witness :
    generate_tests "f" ⟨[], []⟩ ⟨some "openai", none, none⟩ true false
      (.err "quota exceeded") =
      _parse_generated_content
        (_generate_mock_content "f" ⟨[], []⟩ ⟨some "openai", none, none⟩)
        "f" ⟨[], []⟩ :=
  (c1_provider_error_falls_back "f" ⟨[], []⟩ ⟨some "openai", none, none⟩
    true false "quota exceeded" (Or.inl ⟨rfl, rfl⟩)).1

theorem not_marker_of_head {l : String}
    (h : ∀ c rest, l.data = c :: rest → c ≠ '`') : isFileMarker l = false := by
  unfold isFileMarker pyStartsWith
  match hd : l.data with
  | [] => rfl
  | c :: rest =>
    have hc : ('`' == c) = false := by
      simp only [beq_eq_false_iff_ne]
      exact fun he => h c rest hd he.symm
    show (List.isPrefixOf ['`', '`', '`'] (c :: rest) && _) = false
    simp [List.isPrefixOf, hc]

theorem not_marker_of_no_colon {s : String} (h : pyHasChar s ':' = false) :
    isFileMarker s = false := by
  unfold isFileMarker
  rw [h, Bool.and_false]

theorem hexDigit_ne_nl {n : Nat} (h : n < 16) : hexDigit n ≠ '\n' := by
  intro hc
  have := congrArg Char.toNat hc
  unfold hexDigit at this
  rw [show ('\n' : Char).toNat = 10 from rfl] at this
  by_cases h10 : n < 10
  · rw [if_pos h10, charOfNat_toNat (by omega)] at this
    omega
  · rw [if_neg h10, charOfNat_toNat (by omega)] at this
    omega

theorem uEscape4_no_nl (n : Nat) : ∀ c ∈ uEscape4 n, c ≠ '\n' := by
  intro c hc
  unfold uEscape4 at hc
  rcases List.mem_cons.mp hc with rfl | hc; · decide
  rcases List.mem_cons.mp hc with rfl | hc; · decide
  rcases List.mem_cons.mp hc with rfl | hc
  · exact hexDigit_ne_nl (Nat.mod_lt _ (by omega))
  rcases List.mem_cons.mp hc with rfl | hc
  · exact hexDigit_ne_nl (Nat.mod_lt _ (by omega))
  rcases List.mem_cons.mp hc with rfl | hc
  · exact hexDigit_ne_nl (Nat.mod_lt _ (by omega))
  rcases List.mem_cons.mp hc with rfl | hc
  · exact hexDigit_ne_nl (Nat.mod_lt _ (by omega))
  exact absurd hc (List.not_mem_nil c)

theorem jsonEscapeChar_no_nl (c : Char) : ∀ d ∈ jsonEscapeChar c, d ≠ '\n' := by
  intro d hd
  unfold jsonEscapeChar at hd
  by_cases h0 : (c == '"') = true
  · rw [if_pos h0] at hd
    rcases List.mem_cons.mp hd with rfl | hd
    · decide
    rcases List.mem_cons.mp hd with rfl | hd
    · decide
    exact absurd hd (List.not_mem_nil d)
  rw [if_neg h0] at hd
  by_cases h1 : (c == '\\') = true
  · rw [if_pos h1] at hd
    rcases List.mem_cons.mp hd with rfl | hd
    · decide
    rcases List.mem_cons.mp hd with rfl | hd
    · decide
    exact absurd hd (List.not_mem_nil d)
  rw [if_neg h1] at hd
  by_cases h2 : (c == '\n') = true
  · rw [if_pos h2] at hd
    rcases List.mem_cons.mp hd with rfl | hd
    · decide
    rcases List.mem_cons.mp hd with rfl | hd
    · decide
    exact absurd hd (List.not_mem_nil d)
  rw [if_neg h2] at hd
  by_cases h3 : (c == '\t') = true
  · rw [if_pos h3] at hd
    rcases List.mem_cons.mp hd with rfl | hd
    · decide
    rcases List.mem_cons.mp hd with rfl | hd
    · decide
    exact absurd hd (List.not_mem_nil d)
  rw [if_neg h3] at hd
  by_cases h4 : (c == '\x0d') = true
  · rw [if_pos h4] at hd
    rcases List.mem_cons.mp hd with rfl | hd
    · decide
    rcases List.mem_cons.mp hd with rfl | hd
    · decide
    exact absurd hd (List.not_mem_nil d)
  rw [if_neg h4] at hd
  by_cases h5 : (c.toNat == 8) = true
  · rw [if_pos h5] at hd
    rcases List.mem_cons.mp hd with rfl | hd
    · decide
    rcases List.mem_cons.mp hd with rfl | hd
    · decide
    exact absurd hd (List.not_mem_nil d)
  rw [if_neg h5] at hd
  by_cases h6 : (c.toNat == 12) = true
  · rw [if_pos h6] at hd
    rcases List.mem_cons.mp hd with rfl | hd
    · decide
    rcases List.mem_cons.mp hd with rfl | hd
    · decide
    exact absurd hd (List.not_mem_nil d)
  rw [if_neg h6] at hd
  by_cases h7 : c.toNat < 32
  · rw [if_pos h7] at hd
    exact uEscape4_no_nl _ d hd
  rw [if_neg h7] at hd
  by_cases h8 : c.toNat < 127
  · rw [if_pos h8] at hd
    rcases List.mem_cons.mp hd with rfl | hd
    · intro hc
      rw [hc] at h2
      exact absurd (by decide) h2
    exact absurd hd (List.not_mem_nil d)
  rw [if_neg h8] at hd
  by_cases h9 : c.toNat < 65536
  · rw [if_pos h9] at hd
    exact uEscape4_no_nl _ d hd
  rw [if_neg h9] at hd
  rcases List.mem_append.mp hd with hd | hd
  · exact uEscape4_no_nl _ d hd
  · exact uEscape4_no_nl _ d hd

theorem jsonStr_no_nl (s : String) : ∀ c ∈ (jsonStr s).data, c ≠ '\n' := by
  intro c hc
  unfold jsonStr at hc
  rw [String.data_append, String.data_append] at hc
  rcases List.mem_append.mp hc with hc | hc
  · rcases List.mem_append.mp hc with hc | hc
    · rcases List.mem_cons.mp hc with rfl | hc; · decide
      exact absurd hc (List.not_mem_nil c)
    · rw [data_mk] at hc
      obtain ⟨piece, hp, hcp⟩ := List.mem_flatten.mp hc
      obtain ⟨e, _, rfl⟩ := List.mem_map.mp hp
      exact jsonEscapeChar_no_nl e c hcp
  · rcases List.mem_cons.mp hc with rfl | hc; · decide
    exact absurd hc (List.not_mem_nil c)

theorem spaces_chars {n : Nat} : ∀ c ∈ (spaces n).data, c = ' ' := by
  intro c hc
  unfold spaces at hc
  rw [data_mk] at hc
  exact List.eq_of_mem_replicate hc

theorem sj_prefix {pre s : String}
    (hpre_nl : ∀ c ∈ pre.data, c ≠ '\n')
    (hpre_head : ∀ c rest, pre.data = c :: rest → c ≠ '`')
    (hs : (∀ c ∈ s.data, c ≠ '\n') ∧ (∀ c rest, s.data = c :: rest → c ≠ '`')) :
    (∀ c ∈ (pre ++ s).data, c ≠ '\n') ∧
    (∀ c rest, (pre ++ s).data = c :: rest → c ≠ '`') := by
  constructor
  · intro c hc
    rw [String.data_append] at hc
    rcases List.mem_append.mp hc with hc | hc
    · exact hpre_nl c hc
    · exact hs.1 c hc
  · intro c rest hc
    rw [String.data_append] at hc
    match hp : pre.data with
    | [] =>
      rw [hp, List.nil_append] at hc
      exact hs.2 c rest hc
    | p0 :: pr =>
      rw [hp, List.cons_append] at hc
      injection hc with h1 _
      exact h1 ▸ hpre_head p0 pr hp

theorem sj_spaces_append {n : Nat} {s : String}
    (hs : (∀ c ∈ s.data, c ≠ '\n') ∧ (∀ c rest, s.data = c :: rest → c ≠ '`')) :
    (∀ c ∈ (spaces n ++ s).data, c ≠ '\n') ∧
    (∀ c rest, (spaces n ++ s).data = c :: rest → c ≠ '`') := by
  refine sj_prefix ?_ ?_ hs
  · intro c hc
    rw [spaces_chars c hc]
    decide
  · intro c rest hc
    have : c ∈ (spaces n).data := by rw [hc]; exact List.mem_cons_self c rest
    rw [spaces_chars c this]
    decide

theorem sj_comma {l : String}
    (hl : (∀ c ∈ l.data, c ≠ '\n') ∧ (∀ c rest, l.data = c :: rest → c ≠ '`')) :
    (∀ c ∈ (l ++ ",").data, c ≠ '\n') ∧
    (∀ c rest, (l ++ ",").data = c :: rest → c ≠ '`') := by
  constructor
  · intro c hc
    rw [String.data_append] at hc
    rcases List.mem_append.mp hc with hc | hc
    · exact hl.1 c hc
    · rcases List.mem_cons.mp hc with rfl | hc; · decide
      exact absurd hc (List.not_mem_nil c)
  · intro c rest hc
    rw [String.data_append] at hc
    match hp : l.data with
    | [] =>
      rw [hp, List.nil_append] at hc
      injection hc with h1 _
      subst h1
      decide
    | p0 :: pr =>
      rw [hp, List.cons_append] at hc
      injection hc with h1 _
      exact h1 ▸ hl.2 p0 pr hp

theorem appendToLast_mem {suf : String} {ch : List String} {l : String}
    (hl : l ∈ appendToLast suf ch) : l ∈ ch ∨ ∃ l0 ∈ ch, l = l0 ++ suf := by
  induction ch with
  | nil => exact absurd hl (List.not_mem_nil l)
  | cons a rest ih =>
    match rest with
    | [] =>
      rcases List.mem_cons.mp hl with rfl | hl
      · exact Or.inr ⟨a, List.mem_cons_self a [], rfl⟩
      · exact absurd hl (List.not_mem_nil l)
    | b :: bs =>
      rcases List.mem_cons.mp hl with rfl | hl
      · exact Or.inl (List.mem_cons_self l (b :: bs))
      · rcases ih hl with h | ⟨l0, hl0, rfl⟩
        · exact Or.inl (List.mem_cons_of_mem a h)
        · exact Or.inr ⟨l0, List.mem_cons_of_mem a hl0, rfl⟩

theorem commaChunks_mem {cs : List (List String)} {l : String}
    (hl : l ∈ commaChunks cs) :
    ∃ ch ∈ cs, l ∈ ch ∨ ∃ l0 ∈ ch, l = l0 ++ "," := by
  induction cs with
  | nil => exact absurd hl (List.not_mem_nil l)
  | cons a rest ih =>
    match rest with
    | [] => exact ⟨a, List.mem_cons_self a [], Or.inl hl⟩
    | b :: bs =>
      rcases List.mem_append.mp hl with hl | hl
      · rcases appendToLast_mem hl with h | h
        · exact ⟨a, List.mem_cons_self a (b :: bs), Or.inl h⟩
        · exact ⟨a, List.mem_cons_self a (b :: bs), Or.inr h⟩
      · obtain ⟨ch, hch, hin⟩ := ih hl
        exact ⟨ch, List.mem_cons_of_mem a hch, hin⟩

theorem chunkEntry_mem {pre : String} {ch : List String} {l : String}
    (hl : l ∈ chunkEntry pre ch) :
    l = pre ∨ (∃ l0 ∈ ch, l = pre ++ l0) ∨ l ∈ ch := by
  match ch with
  | [] =>
    rcases List.mem_cons.mp hl with rfl | hl
    · exact Or.inl rfl
    · exact absurd hl (List.not_mem_nil l)
  | a :: rest =>
    rcases List.mem_cons.mp hl with rfl | hl
    · exact Or.inr (Or.inl ⟨a, List.mem_cons_self a rest, rfl⟩)
    · exact Or.inr (Or.inr (List.mem_cons_of_mem a hl))

theorem jsonDictBlock_safe {ind : Nat} {chunks : List (List String)}
    (h : ∀ ch ∈ chunks, ∀ l ∈ ch,
      (∀ c ∈ l.data, c ≠ '\n') ∧ (∀ c rest, l.data = c :: rest → c ≠ '`')) :
    ∀ l ∈ jsonDictBlock ind chunks,
      (∀ c ∈ l.data, c ≠ '\n') ∧ (∀ c rest, l.data = c :: rest → c ≠ '`') := by
  intro l hl
  unfold jsonDictBlock at hl
  match chunks, h with
  | [], _ =>
    rcases List.mem_cons.mp hl with rfl | hl
    · exact ⟨by decide, by intro c rest hc; injection hc with h1 _; subst h1; decide⟩
    · exact absurd hl (List.not_mem_nil l)
  | c0 :: cs, h =>
    rcases List.mem_cons.mp hl with rfl | hl
    · exact ⟨by decide, by intro c rest hc; injection hc with h1 _; subst h1; decide⟩
    rcases List.mem_append.mp hl with hl | hl
    · obtain ⟨ch, hch, hin⟩ := commaChunks_mem hl
      obtain ⟨ch0, hch0, rfl⟩ := List.mem_map.mp hch
      have hch0safe := h ch0 hch0
      have hmemSafe : ∀ m ∈ chunkEntry (spaces (ind + 2)) ch0,
          (∀ c ∈ m.data, c ≠ '\n') ∧
          (∀ c rest, m.data = c :: rest → c ≠ '`') := by
        intro m hm
        rcases chunkEntry_mem hm with rfl | ⟨l0, hl0, rfl⟩ | hm'
        · refine ⟨fun c hc => by rw [spaces_chars c hc]; decide, ?_⟩
          intro c rest hc
          have : c ∈ (spaces (ind + 2)).data := by
            rw [hc]; exact List.mem_cons_self c rest
          rw [spaces_chars c this]
          decide
        · exact sj_spaces_append (hch0safe l0 hl0)
        · exact hch0safe m hm'
      rcases hin with hin | ⟨l0, hl0, rfl⟩
      · exact hmemSafe l hin
      · exact sj_comma (hmemSafe l0 hl0)
    · rcases List.mem_cons.mp hl with rfl | hl
      · refine sj_spaces_append ⟨by decide, ?_⟩
        intro c rest hc
        injection hc with h1 _
        subst h1
        decide
      · exact absurd hl (List.not_mem_nil l)

theorem jsonListBlock_safe {ind : Nat} {chunks : List (List String)}
    (h : ∀ ch ∈ chunks, ∀ l ∈ ch,
      (∀ c ∈ l.data, c ≠ '\n') ∧ (∀ c rest, l.data = c :: rest → c ≠ '`')) :
    ∀ l ∈ jsonListBlock ind chunks,
      (∀ c ∈ l.data, c ≠ '\n') ∧ (∀ c rest, l.data = c :: rest → c ≠ '`') := by
  intro l hl
  unfold jsonListBlock at hl
  match chunks, h with
  | [], _ =>
    rcases List.mem_cons.mp hl with rfl | hl
    · exact ⟨by decide, by intro c rest hc; injection hc with h1 _; subst h1; decide⟩
    · exact absurd hl (List.not_mem_nil l)
  | c0 :: cs, h =>
    rcases List.mem_cons.mp hl with rfl | hl
    · exact ⟨by decide, by intro c rest hc; injection hc with h1 _; subst h1; decide⟩
    rcases List.mem_append.mp hl with hl | hl
    · obtain ⟨ch, hch, hin⟩ := commaChunks_mem hl
      obtain ⟨ch0, hch0, rfl⟩ := List.mem_map.mp hch
      have hch0safe := h ch0 hch0
      have hmemSafe : ∀ m ∈ chunkEntry (spaces (ind + 2)) ch0,
          (∀ c ∈ m.data, c ≠ '\n') ∧
          (∀ c rest, m.data = c :: rest → c ≠ '`') := by
        intro m hm
        rcases chunkEntry_mem hm with rfl | ⟨l0, hl0, rfl⟩ | hm'
        · refine ⟨fun c hc => by rw [spaces_chars c hc]; decide, ?_⟩
          intro c rest hc
          have : c ∈ (spaces (ind + 2)).data := by
            rw [hc]; exact List.mem_cons_self c rest
          rw [spaces_chars c this]
          decide
        · exact sj_spaces_append (hch0safe l0 hl0)
        · exact hch0safe m hm'
      rcases hin with hin | ⟨l0, hl0, rfl⟩
      · exact hmemSafe l hin
      · exact sj_comma (hmemSafe l0 hl0)
    · rcases List.mem_cons.mp hl with rfl | hl
      · refine sj_spaces_append ⟨by decide, ?_⟩
        intro c rest hc
        injection hc with h1 _
        subst h1
        decide
      · exact absurd hl (List.not_mem_nil l)

theorem keyval_safe {key : String} {v : String}
    (hkey_nl : ∀ c ∈ key.data, c ≠ '\n')
    (hkey_head : ∀ c rest, key.data = c :: rest → c ≠ '`')
    (hkey_ne : key.data ≠ [])
    (hv : ∀ c ∈ v.data, c ≠ '\n') :
    (∀ c ∈ (key ++ v).data, c ≠ '\n') ∧
    (∀ c rest, (key ++ v).data = c :: rest → c ≠ '`') := by
  constructor
  · intro c hc
    rw [String.data_append] at hc
    rcases List.mem_append.mp hc with hc | hc
    · exact hkey_nl c hc
    · exact hv c hc
  · intro c rest hc
    rw [String.data_append] at hc
    match hp : key.data with
    | [] => exact absurd hp hkey_ne
    | p0 :: pr =>
      rw [hp, List.cons_append] at hc
      injection hc with h1 _
      exact h1 ▸ hkey_head p0 pr hp
theorem digitChar_ne_nl {n : Nat} (h : n < 10) : Nat.digitChar n ≠ '\n' := by
  interval_cases n <;> decide

theorem toDigitsCore_chars (f : Nat) :
    ∀ (n : Nat) (l : List Char), (∀ c ∈ l, c ≠ '\n') →
      ∀ c ∈ Nat.toDigitsCore 10 f n l, c ≠ '\n' := by
  induction f with
  | zero =>
    intro n l hl c hc
    exact hl c hc
  | succ f ih =>
    intro n l hl c hc
    unfold Nat.toDigitsCore at hc
    simp only [] at hc
    split at hc
    · rcases List.mem_cons.mp hc with rfl | hc
      · exact digitChar_ne_nl (Nat.mod_lt _ (by omega))
      · exact hl c hc
    · refine ih (n / 10) (Nat.digitChar (n % 10) :: l) ?_ c hc
      intro d hd
      rcases List.mem_cons.mp hd with rfl | hd
      · exact digitChar_ne_nl (Nat.mod_lt _ (by omega))
      · exact hl d hd

theorem natToString_no_nl (n : Nat) : ∀ c ∈ (toString n).data, c ≠ '\n' := by
  intro c hc
  have : (toString n).data = Nat.toDigitsCore 10 (n + 1) n [] := rfl
  rw [this] at hc
  exact toDigitsCore_chars (n + 1) n [] (fun d hd => absurd hd
    (List.not_mem_nil d)) c hc

theorem sourceExtractedChunk_safe (ind : Nat) (e : SourceExtracted) :
    ∀ l ∈ sourceExtractedChunk ind e,
      (∀ c ∈ l.data, c ≠ '\n') ∧ (∀ c rest, l.data = c :: rest → c ≠ '`') := by
  apply jsonDictBlock_safe
  intro ch hch l hl
  rcases List.mem_append.mp hch with hch | hch
  · match e.url, hch with
    | some u, hch =>
      rcases List.mem_cons.mp hch with rfl | hch
      · rcases List.mem_cons.mp hl with rfl | hl
        · exact keyval_safe (by decide) (by
            intro c rest hc
            injection hc with h1 _
            subst h1
            decide) (by decide) (jsonStr_no_nl u)
        · exact absurd hl (List.not_mem_nil l)
      · exact absurd hch (List.not_mem_nil ch)
  · match e.title, hch with
    | some t, hch =>
      rcases List.mem_cons.mp hch with rfl | hch
      · rcases List.mem_cons.mp hl with rfl | hl
        · exact keyval_safe (by decide) (by
            intro c rest hc
            injection hc with h1 _
            subst h1
            decide) (by decide) (jsonStr_no_nl t)
        · exact absurd hl (List.not_mem_nil l)
      · exact absurd hch (List.not_mem_nil ch)

theorem contextSourceChunk_safe (ind : Nat) (s : ContextSource) :
    ∀ l ∈ contextSourceChunk ind s,
      (∀ c ∈ l.data, c ≠ '\n') ∧ (∀ c rest, l.data = c :: rest → c ≠ '`') := by
  apply jsonDictBlock_safe
  intro ch hch l hl
  rcases List.mem_append.mp hch with hch | hch
  · match s.type, hch with
    | some t, hch =>
      rcases List.mem_cons.mp hch with rfl | hch
      · rcases List.mem_cons.mp hl with rfl | hl
        · exact keyval_safe (by decide) (by
            intro c rest hc
            injection hc with h1 _
            subst h1
            decide) (by decide) (jsonStr_no_nl t)
        · exact absurd hl (List.not_mem_nil l)
      · exact absurd hch (List.not_mem_nil ch)
  · match s.extracted, hch with
    | some e, hch =>
      rcases List.mem_cons.mp hch with rfl | hch
      · rcases chunkEntry_mem hl with rfl | ⟨l0, hl0, rfl⟩ | hl'
        · exact ⟨by decide, by
            intro c rest hc
            injection hc with h1 _
            subst h1
            decide⟩
        · have hsafe := sourceExtractedChunk_safe (ind + 2) e l0 hl0
          exact sj_prefix (by decide) (by
            intro c rest hc
            injection hc with h1 _
            subst h1
            decide) hsafe
        · exact sourceExtractedChunk_safe (ind + 2) e l hl'
      · exact absurd hch (List.not_mem_nil ch)

theorem ctxJsonLines_safe (context : AggregatedContext) :
    ∀ l ∈ ctxJsonLines context,
      (∀ c ∈ l.data, c ≠ '\n') ∧ (∀ c rest, l.data = c :: rest → c ≠ '`') := by
  apply jsonDictBlock_safe
  intro ch hch l hl
  rcases List.mem_cons.mp hch with rfl | hch
  · rcases chunkEntry_mem hl with rfl | ⟨l0, hl0, rfl⟩ | hl'
    · exact ⟨by decide, by
        intro c rest hc
        injection hc with h1 _
        subst h1
        decide⟩
    · have hsafe : (∀ c ∈ l0.data, c ≠ '\n') ∧
          (∀ c rest, l0.data = c :: rest → c ≠ '`') := by
        refine jsonDictBlock_safe ?_ l0 hl0
        intro ch2 hch2 m hm
        obtain ⟨kv, _, rfl⟩ := List.mem_map.mp hch2
        rcases List.mem_cons.mp hm with rfl | hm
        · have h1 := jsonStr_no_nl kv.1
          have h2 := jsonStr_no_nl kv.2
          refine keyval_safe ?_ ?_ ?_ h2
          · intro c hc
            rw [String.data_append] at hc
            rcases List.mem_append.mp hc with hc | hc
            · exact h1 c hc
            · rcases List.mem_cons.mp hc with rfl | hc; · decide
              rcases List.mem_cons.mp hc with rfl | hc; · decide
              exact absurd hc (List.not_mem_nil c)
          · intro c rest hc
            rw [String.data_append] at hc
            have hj : (jsonStr kv.1).data = '"' :: ((String.mk
                ((kv.1.data.map jsonEscapeChar).flatten)).data ++ ['"']) := by
              unfold jsonStr
              rw [String.data_append, String.data_append]
              rfl
            rw [hj, List.cons_append] at hc
            injection hc with h1' _
            subst h1'
            decide
          · unfold jsonStr
            rw [String.data_append, String.data_append]
            simp
        · exact absurd hm (List.not_mem_nil m)
      exact sj_prefix (by decide) (by
        intro c rest hc
        injection hc with h1 _
        subst h1
        decide) hsafe
    · refine jsonDictBlock_safe ?_ l hl'
      intro ch2 hch2 m hm
      obtain ⟨kv, _, rfl⟩ := List.mem_map.mp hch2
      rcases List.mem_cons.mp hm with rfl | hm
      · have h2 := jsonStr_no_nl kv.2
        refine keyval_safe ?_ ?_ ?_ h2
        · intro c hc
          rw [String.data_append] at hc
          rcases List.mem_append.mp hc with hc | hc
          · exact jsonStr_no_nl kv.1 c hc
          · rcases List.mem_cons.mp hc with rfl | hc; · decide
            rcases List.mem_cons.mp hc with rfl | hc; · decide
            exact absurd hc (List.not_mem_nil c)
        · intro c rest hc
          rw [String.data_append] at hc
          have hj : (jsonStr kv.1).data = '"' :: ((String.mk
              ((kv.1.data.map jsonEscapeChar).flatten)).data ++ ['"']) := by
            unfold jsonStr
            rw [String.data_append, String.data_append]
            rfl
          rw [hj, List.cons_append] at hc
          injection hc with h1' _
          subst h1'
          decide
        · unfold jsonStr
          rw [String.data_append, String.data_append]
          simp
      · exact absurd hm (List.not_mem_nil m)
  rcases List.mem_cons.mp hch with rfl | hch
  · rcases chunkEntry_mem hl with rfl | ⟨l0, hl0, rfl⟩ | hl'
    · exact ⟨by decide, by
        intro c rest hc
        injection hc with h1 _
        subst h1
        decide⟩
    · have hsafe : (∀ c ∈ l0.data, c ≠ '\n') ∧
          (∀ c rest, l0.data = c :: rest → c ≠ '`') := by
        refine jsonListBlock_safe ?_ l0 hl0
        intro ch2 hch2 m hm
        obtain ⟨src, _, rfl⟩ := List.mem_map.mp hch2
        exact contextSourceChunk_safe 4 src m hm
      exact sj_prefix (by decide) (by
        intro c rest hc
        injection hc with h1 _
        subst h1
        decide) hsafe
    · refine jsonListBlock_safe ?_ l hl'
      intro ch2 hch2 m hm
      obtain ⟨src, _, rfl⟩ := List.mem_map.mp hch2
      exact contextSourceChunk_safe 4 src m hm
  · exact absurd hch (List.not_mem_nil ch)

theorem cfgJsonLines_safe (config : GenerationConfig) :
    ∀ l ∈ cfgJsonLines config,
      (∀ c ∈ l.data, c ≠ '\n') ∧ (∀ c rest, l.data = c :: rest → c ≠ '`') := by
  apply jsonDictBlock_safe
  intro ch hch l hl
  rcases List.mem_append.mp hch with hch | hch
  · rcases List.mem_append.mp hch with hch | hch
    · match config.llm_provider, hch with
      | some p, hch =>
        rcases List.mem_cons.mp hch with rfl | hch
        · rcases List.mem_cons.mp hl with rfl | hl
          · exact keyval_safe (by decide) (by
              intro c rest hc
              injection hc with h1 _
              subst h1
              decide) (by decide) (jsonStr_no_nl p)
          · exact absurd hl (List.not_mem_nil l)
        · exact absurd hch (List.not_mem_nil ch)
    · match config.model, hch with
      | some m, hch =>
        rcases List.mem_cons.mp hch with rfl | hch
        · rcases List.mem_cons.mp hl with rfl | hl
          · exact keyval_safe (by decide) (by
              intro c rest hc
              injection hc with h1 _
              subst h1
              decide) (by decide) (jsonStr_no_nl m)
          · exact absurd hl (List.not_mem_nil l)
        · exact absurd hch (List.not_mem_nil ch)
  · match config.max_tokens, hch with
    | some n, hch =>
      rcases List.mem_cons.mp hch with rfl | hch
      · rcases List.mem_cons.mp hl with rfl | hl
        · exact keyval_safe (by decide) (by
            intro c rest hc
            injection hc with h1 _
            subst h1
            decide) (by decide) (natToString_no_nl n)
        · exact absurd hl (List.not_mem_nil l)
      · exact absurd hch (List.not_mem_nil ch)

theorem append_no_nl {a b : String} (ha : ∀ c ∈ a.data, c ≠ '\n')
    (hb : ∀ c ∈ b.data, c ≠ '\n') : ∀ c ∈ (a ++ b).data, c ≠ '\n' := by
  intro c hc
  rw [String.data_append] at hc
  rcases List.mem_append.mp hc with hc | hc
  · exact ha c hc
  · exact hb c hc

theorem head_append_left {a b : String}
    (h : ∀ c rest, a.data = c :: rest → c ≠ '`') (hne : a.data ≠ []) :
    ∀ c rest, (a ++ b).data = c :: rest → c ≠ '`' := by
  intro c rest hc
  rw [String.data_append] at hc
  match hp : a.data with
  | [] => exact absurd hp hne
  | c0 :: cr =>
    rw [hp, List.cons_append] at hc
    injection hc with h1 _
    exact h1 ▸ h c0 cr hp

theorem not_marker_append_left {a b : String}
    (h : ∀ c rest, a.data = c :: rest → c ≠ '`') (hne : a.data ≠ []) :
    isFileMarker (a ++ b) = false :=
  not_marker_of_head (head_append_left h hne)

theorem append_data_ne {a b : String} (hne : a.data ≠ []) :
    (a ++ b).data ≠ [] := by
  rw [String.data_append]
  intro h
  exact hne (List.append_eq_nil.mp h).1

theorem no_colon_of_chars {s : String} (h : ∀ c ∈ s.data, c ≠ ':') :
    pyHasChar s ':' = false := by
  unfold pyHasChar
  rw [List.contains_eq_any_beq]
  apply List.any_eq_false.mpr
  intro x hx he
  exact h x hx (beq_iff_eq.mp he).symm

theorem no_colon_append {a b : String} (ha : pyHasChar a ':' = false)
    (hb : pyHasChar b ':' = false) : pyHasChar (a ++ b) ':' = false := by
  unfold pyHasChar at *
  rw [String.data_append, List.contains_eq_any_beq, List.any_append]
  rw [List.contains_eq_any_beq] at ha hb
  rw [ha, hb]
  rfl

theorem mockContentLines_safe
    (feature_name clean_name clean_name_title base_url : String)
    (context : AggregatedContext) (config : GenerationConfig)
    (hfn : ∀ c ∈ feature_name.data, c ≠ '\n')
    (hcn : ∀ c ∈ clean_name.data, c ≠ '\n' ∧ c ≠ ':' ∧ c ≠ '`')
    (hct : ∀ c ∈ clean_name_title.data, c ≠ '\n')
    (hurl : ∀ c ∈ base_url.data, c ≠ '\n') :
    ∀ l ∈ mockContentLines feature_name clean_name clean_name_title base_url
      context config,
      (∀ c ∈ l.data, c ≠ '\n') ∧ isFileMarker l = false := by
  unfold mockContentLines
  refine List.forall_mem_append.mpr ⟨List.forall_mem_append.mpr
    ⟨List.forall_mem_append.mpr ⟨List.forall_mem_append.mpr ⟨?_, ?_⟩, ?_⟩, ?_⟩,
    ?_⟩
  · exact List.forall_mem_cons.mpr ⟨⟨append_no_nl (by decide) hfn,
     not_marker_append_left (by
      intro c r hc
      injection hc with h1 h2
      subst h1
      decide) (by decide)⟩,
    List.forall_mem_cons.mpr ⟨(by decide),
    List.forall_mem_cons.mpr ⟨(by decide),
    List.forall_mem_cons.mpr ⟨(by decide),
    List.forall_mem_cons.mpr ⟨(by decide),
    List.forall_mem_cons.mpr ⟨(by decide),
    List.forall_mem_cons.mpr ⟨(by decide),
    List.forall_mem_cons.mpr ⟨(by decide),
    List.forall_mem_cons.mpr ⟨(by decide),
    List.forall_mem_cons.mpr ⟨(by decide),
    List.forall_mem_cons.mpr ⟨(by decide),
    List.forall_mem_cons.mpr ⟨(by decide),
    List.forall_mem_cons.mpr ⟨(by decide),
    List.forall_mem_cons.mpr ⟨(by decide),
    List.forall_mem_cons.mpr ⟨(by decide),
    List.forall_mem_cons.mpr ⟨(by decide),
    List.forall_mem_cons.mpr ⟨(by decide),
    List.forall_mem_cons.mpr ⟨(by decide),
    List.forall_mem_cons.mpr ⟨(by decide),
    List.forall_mem_cons.mpr ⟨(by decide),
    List.forall_mem_cons.mpr ⟨(by decide),
    List.forall_mem_cons.mpr ⟨(by decide),
    List.forall_mem_cons.mpr ⟨(by decide),
    List.forall_mem_cons.mpr ⟨(by decide),
    List.forall_mem_cons.mpr ⟨(by decide),
    List.forall_mem_cons.mpr ⟨(by decide),
    List.forall_mem_cons.mpr ⟨(by decide),
    List.forall_mem_cons.mpr ⟨(by decide),
    List.forall_mem_cons.mpr ⟨(by decide),
    List.forall_mem_cons.mpr ⟨(by decide),
    List.forall_mem_cons.mpr ⟨(by decide),
    List.forall_mem_cons.mpr ⟨(by decide),
    List.forall_mem_cons.mpr ⟨(by decide),
    List.forall_mem_cons.mpr ⟨(by decide),
    List.forall_mem_cons.mpr ⟨(by decide),
    List.forall_mem_cons.mpr ⟨(by decide),
    List.forall_mem_cons.mpr ⟨(by decide),
    List.forall_mem_cons.mpr ⟨(by decide),
    List.forall_mem_cons.mpr ⟨(by decide),
    List.forall_mem_cons.mpr ⟨(by decide),
    List.forall_mem_cons.mpr ⟨(by decide),
    List.forall_mem_cons.mpr ⟨(by decide),
    List.forall_mem_cons.mpr ⟨(by decide),
    List.forall_mem_cons.mpr ⟨(by decide),
    List.forall_mem_cons.mpr ⟨(by decide),
    List.forall_mem_cons.mpr ⟨(by decide),
    List.forall_mem_cons.mpr ⟨(by decide),
    List.forall_mem_cons.mpr ⟨(by decide),
    List.forall_mem_cons.mpr ⟨(by decide),
    List.forall_mem_cons.mpr ⟨(by decide),
    List.forall_mem_cons.mpr ⟨(by decide),
    List.forall_mem_cons.mpr ⟨(by decide),
    List.forall_mem_cons.mpr ⟨(by decide),
    List.forall_mem_cons.mpr ⟨(by decide),
    List.forall_mem_cons.mpr ⟨(by decide),
    List.forall_mem_cons.mpr ⟨(by decide),
    List.forall_mem_cons.mpr ⟨(by decide),
    List.forall_mem_cons.mpr ⟨(by decide),
    List.forall_mem_cons.mpr ⟨(by decide),
    List.forall_mem_cons.mpr ⟨(by decide),
    List.forall_mem_cons.mpr ⟨(by decide),
    List.forall_mem_cons.mpr ⟨(by decide),
    List.forall_mem_cons.mpr ⟨(by decide),
    List.forall_mem_cons.mpr ⟨(by decide),
    List.forall_mem_cons.mpr ⟨(by decide),
    List.forall_mem_cons.mpr ⟨(by decide),
    List.forall_mem_cons.mpr ⟨(by decide),
    List.forall_mem_cons.mpr ⟨(by decide),
    List.forall_mem_cons.mpr ⟨(by decide),
    List.forall_mem_cons.mpr ⟨(by decide),
    List.forall_mem_cons.mpr ⟨(by decide),
    List.forall_mem_cons.mpr ⟨⟨append_no_nl (append_no_nl (by decide) (fun c hc => (hcn c hc).1)) (by decide),
     not_marker_of_no_colon (no_colon_append (no_colon_append (by decide)
       (no_colon_of_chars (fun c hc => (hcn c hc).2.1))) (by decide))⟩,
    List.forall_mem_cons.mpr ⟨⟨append_no_nl (by decide) hfn,
     not_marker_append_left (by
      intro c r hc
      injection hc with h1 h2
      subst h1
      decide) (by decide)⟩,
    List.forall_mem_cons.mpr ⟨(by decide),
    List.forall_mem_cons.mpr ⟨⟨append_no_nl (append_no_nl (by decide) hfn) (by decide),
     not_marker_append_left (head_append_left (by
      intro c r hc
      injection hc with h1 h2
      subst h1
      decide) (by decide))
       (append_data_ne (by decide))⟩,
    List.forall_mem_cons.mpr ⟨(by decide),
    List.forall_mem_cons.mpr ⟨(by decide),
    List.forall_mem_cons.mpr ⟨(by decide),
    List.forall_mem_cons.mpr ⟨⟨append_no_nl (append_no_nl (by decide) hurl) (by decide),
     not_marker_append_left (head_append_left (by
      intro c r hc
      injection hc with h1 h2
      subst h1
      decide) (by decide))
       (append_data_ne (by decide))⟩,
    List.forall_mem_cons.mpr ⟨(by decide),
    List.forall_mem_cons.mpr ⟨(by decide),
    List.forall_mem_cons.mpr ⟨(by decide),
    List.forall_mem_cons.mpr ⟨(by decide),
    List.forall_mem_cons.mpr ⟨⟨append_no_nl (append_no_nl (by decide) hurl) (by decide),
     not_marker_append_left (head_append_left (by
      intro c r hc
      injection hc with h1 h2
      subst h1
      decide) (by decide))
       (append_data_ne (by decide))⟩,
    List.forall_mem_cons.mpr ⟨(by decide),
    List.forall_mem_cons.mpr ⟨(by decide),
    List.forall_mem_cons.mpr ⟨(by decide),
    List.forall_mem_cons.mpr ⟨(by decide),
    List.forall_mem_cons.mpr ⟨⟨append_no_nl (append_no_nl (by decide) (fun c hc => (hcn c hc).1)) (by decide),
     not_marker_of_no_colon (no_colon_append (no_colon_append (by decide)
       (no_colon_of_chars (fun c hc => (hcn c hc).2.1))) (by decide))⟩,
    List.forall_mem_cons.mpr ⟨(by decide),
    List.forall_mem_cons.mpr ⟨(by decide),
    List.forall_mem_cons.mpr ⟨(by decide),
    List.forall_mem_cons.mpr ⟨(by decide),
    List.forall_mem_cons.mpr ⟨(by decide),
    List.forall_mem_cons.mpr ⟨(by decide),
    List.forall_mem_cons.mpr ⟨(by decide),
    List.forall_mem_cons.mpr ⟨⟨append_no_nl (append_no_nl (by decide) hct) (by decide),
     not_marker_append_left (head_append_left (by
      intro c r hc
      injection hc with h1 h2
      subst h1
      decide) (by decide))
       (append_data_ne (by decide))⟩,
    List.forall_mem_cons.mpr ⟨(by decide),
    List.forall_mem_cons.mpr ⟨(by decide),
    List.forall_mem_cons.mpr ⟨(by decide),
    List.forall_mem_cons.mpr ⟨(by decide),
    List.forall_mem_cons.mpr ⟨(by decide),
    List.forall_mem_cons.mpr ⟨(by decide),
    List.forall_mem_cons.mpr ⟨(by decide),
    List.forall_mem_cons.mpr ⟨(by decide),
    List.forall_mem_cons.mpr ⟨(by decide),
    List.forall_mem_cons.mpr ⟨(by decide),
    List.forall_mem_cons.mpr ⟨(by decide),
    List.forall_mem_cons.mpr ⟨(by decide),
    List.forall_mem_cons.mpr ⟨(by decide),
    List.forall_mem_cons.mpr ⟨(by decide),
    List.forall_mem_cons.mpr ⟨(by decide),
    List.forall_mem_cons.mpr ⟨(by decide),
    List.forall_mem_cons.mpr ⟨(by decide),
    List.forall_mem_cons.mpr ⟨(by decide),
    List.forall_mem_cons.mpr ⟨(by decide),
    List.forall_mem_cons.mpr ⟨(by decide),
    List.forall_mem_cons.mpr ⟨(by decide),
    List.forall_mem_cons.mpr ⟨(by decide),
    List.forall_mem_cons.mpr ⟨(by decide),
    List.forall_mem_cons.mpr ⟨(by decide),
    List.forall_mem_cons.mpr ⟨(by decide),
    List.forall_mem_cons.mpr ⟨(by decide),
    List.forall_mem_cons.mpr ⟨(by decide),
    List.forall_mem_cons.mpr ⟨(by decide),
    List.forall_mem_cons.mpr ⟨(by decide),
    List.forall_mem_cons.mpr ⟨(by decide),
    List.forall_mem_cons.mpr ⟨(by decide),
    List.forall_mem_cons.mpr ⟨(by decide),
    List.forall_mem_cons.mpr ⟨(by decide),
    List.forall_mem_cons.mpr ⟨(by decide),
    List.forall_mem_cons.mpr ⟨⟨append_no_nl (append_no_nl (by decide) hfn) (by decide),
     not_marker_append_left (head_append_left (by
      intro c r hc
      injection hc with h1 h2
      subst h1
      decide) (by decide))
       (append_data_ne (by decide))⟩,
    List.forall_mem_cons.mpr ⟨(by decide),
    List.forall_mem_cons.mpr ⟨(by decide),
    List.forall_mem_cons.mpr ⟨⟨append_no_nl (append_no_nl (by decide) hfn) (by decide),
     not_marker_append_left (head_append_left (by
      intro c r hc
      injection hc with h1 h2
      subst h1
      decide) (by decide))
       (append_data_ne (by decide))⟩,
    List.forall_mem_cons.mpr ⟨(by decide),
    List.forall_mem_cons.mpr ⟨(by decide),
    List.forall_mem_cons.mpr ⟨(by decide),
    List.forall_mem_cons.mpr ⟨(by decide),
    List.forall_mem_cons.mpr ⟨(by decide),
    List.forall_mem_cons.mpr ⟨(by decide),
    List.forall_mem_cons.mpr ⟨(by decide),
    List.forall_mem_cons.mpr ⟨(by decide),
    List.forall_mem_cons.mpr ⟨(by decide),
    List.forall_mem_cons.mpr ⟨(by decide),
    List.forall_mem_cons.mpr ⟨(by decide),
    List.forall_mem_cons.mpr ⟨(by decide),
    List.forall_mem_cons.mpr ⟨(by decide),
    List.forall_mem_cons.mpr ⟨(by decide),
    List.forall_mem_cons.mpr ⟨(by decide),
    List.forall_mem_cons.mpr ⟨(by decide),
    List.forall_mem_cons.mpr ⟨(by decide),
    List.forall_mem_cons.mpr ⟨(by decide),
    List.forall_mem_cons.mpr ⟨(by decide),
    List.forall_mem_cons.mpr ⟨(by decide),
    List.forall_mem_nil _⟩⟩⟩⟩⟩⟩⟩⟩⟩⟩⟩⟩⟩⟩⟩⟩⟩⟩⟩⟩⟩⟩⟩⟩⟩⟩⟩⟩⟩⟩⟩⟩⟩⟩⟩⟩⟩⟩⟩⟩⟩⟩⟩⟩⟩⟩⟩⟩⟩⟩⟩⟩⟩⟩⟩⟩⟩⟩⟩⟩⟩⟩⟩⟩⟩⟩⟩⟩⟩⟩⟩⟩⟩⟩⟩⟩⟩⟩⟩⟩⟩⟩⟩⟩⟩⟩⟩⟩⟩⟩⟩⟩⟩⟩⟩⟩⟩⟩⟩⟩⟩⟩⟩⟩⟩⟩⟩⟩⟩⟩⟩⟩⟩⟩⟩⟩⟩⟩⟩⟩⟩⟩⟩⟩⟩⟩⟩⟩⟩⟩⟩⟩⟩⟩⟩⟩⟩⟩⟩⟩⟩⟩⟩⟩⟩⟩⟩⟩⟩⟩⟩⟩⟩⟩⟩
  · intro l hl
    have h := ctxJsonLines_safe context l hl
    exact ⟨h.1, not_marker_of_head h.2⟩
  · decide
  · intro l hl
    have h := cfgJsonLines_safe config l hl
    exact ⟨h.1, not_marker_of_head h.2⟩
  · decide


theorem pyToUpper_toNat (c : Char) :
    (pyToUpper c).toNat =
      if 97 ≤ c.toNat ∧ c.toNat ≤ 122 then c.toNat - 32 else c.toNat := by
  unfold pyToUpper
  by_cases h : 97 ≤ c.toNat ∧ c.toNat ≤ 122
  · rw [if_pos h, if_pos (by
      simp only [Bool.and_eq_true, decide_eq_true_eq, charLe_toNat,
        show ('a' : Char).toNat = 97 from rfl,
        show ('z' : Char).toNat = 122 from rfl]
      exact h)]
    exact charOfNat_toNat (by omega)
  · rw [if_neg h, if_neg (by
      simp only [Bool.and_eq_true, decide_eq_true_eq, charLe_toNat,
        show ('a' : Char).toNat = 97 from rfl,
        show ('z' : Char).toNat = 122 from rfl]
      exact h)]

theorem pyToLower_ne_nl {c : Char} (h : c ≠ '\n') : pyToLower c ≠ '\n' := by
  intro hc
  have h10 : c.toNat ≠ 10 := fun he => h (charToNat_inj (by rw [he]; rfl))
  have := congrArg Char.toNat hc
  rw [pyToLower_toNat, show ('\n' : Char).toNat = 10 from rfl] at this
  by_cases hr : 65 ≤ c.toNat ∧ c.toNat ≤ 90
  · rw [if_pos hr] at this
    omega
  · rw [if_neg hr] at this
    exact h10 this

theorem pyToUpper_ne_nl {c : Char} (h : c ≠ '\n') : pyToUpper c ≠ '\n' := by
  intro hc
  have h10 : c.toNat ≠ 10 := fun he => h (charToNat_inj (by rw [he]; rfl))
  have := congrArg Char.toNat hc
  rw [pyToUpper_toNat, show ('\n' : Char).toNat = 10 from rfl] at this
  by_cases hr : 97 ≤ c.toNat ∧ c.toNat ≤ 122
  · rw [if_pos hr] at this
    omega
  · rw [if_neg hr] at this
    exact h10 this

theorem pyTitleData_mem {l : List Char} :
    ∀ {b : Bool}, ∀ d ∈ pyTitleData l b,
      ∃ c ∈ l, d = pyToLower c ∨ d = pyToUpper c ∨ d = c := by
  induction l with
  | nil =>
    intro b d hd
    exact absurd hd (List.not_mem_nil d)
  | cons a rest ih =>
    intro b d hd
    unfold pyTitleData at hd
    by_cases hc : pyIsCased a = true
    · rw [if_pos hc] at hd
      rcases List.mem_cons.mp hd with rfl | hd
      · by_cases hb : b = true
        · exact ⟨a, List.mem_cons_self a rest, by rw [if_pos hb]; exact Or.inl rfl⟩
        · refine ⟨a, List.mem_cons_self a rest, ?_⟩
          rw [if_neg hb]
          exact Or.inr (Or.inl rfl)
      · obtain ⟨c, hcm, hor⟩ := ih d hd
        exact ⟨c, List.mem_cons_of_mem a hcm, hor⟩
    · rw [if_neg hc] at hd
      rcases List.mem_cons.mp hd with hda | hd
      · exact ⟨a, List.mem_cons_self a rest, Or.inr (Or.inr hda)⟩
      · obtain ⟨c, hcm, hor⟩ := ih d hd
        exact ⟨c, List.mem_cons_of_mem a hcm, hor⟩

theorem cleanTitle_no_nl {s : String} (hs : ∀ c ∈ s.data, c ≠ '\n') :
    ∀ c ∈ (pyEraseChar (pyTitle s) uscore).data, c ≠ '\n' := by
  intro c hc
  unfold pyEraseChar at hc
  rw [data_mk] at hc
  have hc' := List.mem_of_mem_filter hc
  unfold pyTitle at hc'
  rw [data_mk] at hc'
  obtain ⟨e, he, hor⟩ := pyTitleData_mem c hc'
  rcases hor with heq | heq | heq
  · rw [heq]
    exact pyToLower_ne_nl (hs e he)
  · rw [heq]
    exact pyToUpper_ne_nl (hs e he)
  · rw [heq]
    exact hs e he

/-- Claim C10, counterexample.  The claim asserts that whenever the
generated content is the mock content, the returned FileSet is exactly the
seven-key default skeleton, because no fence line of the mock content
carries a colon.  A feature name containing a newline followed by a
fence-path marker is interpolated verbatim into the mock template, creating
a marker line inside the mock content: the scan then records a file
(`a.txt`) and the returned FileSet is that single entry, not the seven-key
skeleton. -/
theorem c10_mock_injection_counterexample :
    (generate_tests "x\n```f:a.txt\nhello" ⟨[], []⟩ ⟨none, none, none⟩ false
      false (.ok "ignored")).map Prod.fst = ["a.txt"] ∧
    (_create_default_test_structure "x\n```f:a.txt\nhello"
      (_generate_mock_content "x\n```f:a.txt\nhello" ⟨[], []⟩
        ⟨none, none, none⟩) ⟨[], []⟩).map Prod.fst ≠ ["a.txt"] := by
  refine ⟨by decide, by decide⟩

/-- Claim C10, amended: whenever the generated content is the mock content
(no usable provider client, or the provider call failed), and neither the
feature name nor the resolved base url contains a newline (so no
interpolated value can fabricate a line of its own inside the template),
the returned FileSet is exactly the seven-key default skeleton produced by
`_create_default_test_structure`: no fence line of the mock content then
carries the colon path separator the parser requires, the scan records
zero files, and the mock text own fenced file set never reaches the
caller. -/
theorem c10_mock_default_skeleton (feature_name : String)
    (context : AggregatedContext) (config : GenerationConfig)
    (hfn : ∀ c ∈ feature_name.data, c ≠ '\n')
    (hurl : ∀ c ∈ (resolveBaseUrl context).data, c ≠ '\n') :
    _parse_generated_content
      (_generate_mock_content feature_name context config) feature_name
      context =
      _create_default_test_structure feature_name
        (_generate_mock_content feature_name context config) context ∧
    (_parse_generated_content
      (_generate_mock_content feature_name context config) feature_name
      context).map Prod.fst =
      ["pom.xml", "src/test/java/TestRunner.java",
       "src/test/java/pages/BasePage.java",
       "src/test/java/stepdefinitions/" ++ normalizeFeatureName feature_name
         ++ "_steps.java",
       "src/test/resources/features/" ++ normalizeFeatureName feature_name
         ++ ".feature",
       "src/test/resources/config.properties", "README.md"] ∧
    (∀ r, generate_tests feature_name context config false false r =
      _parse_generated_content
        (_generate_mock_content feature_name context config) feature_name
        context) := by
  have hcn : ∀ c ∈ (normalizeFeatureName feature_name).data,
      c ≠ '\n' ∧ c ≠ ':' ∧ c ≠ '`' := by
    intro c hc
    have h := normalizeFeatureName_chars hc
    exact ⟨h.2.2.2.2.2.2, h.2.2.2.2.1, h.2.2.2.2.2.1⟩
  have hct := cleanTitle_no_nl (fun c hc => (hcn c hc).1)
  have hsafe := mockContentLines_safe feature_name
    (normalizeFeatureName feature_name)
    (pyEraseChar (pyTitle (normalizeFeatureName feature_name)) uscore)
    (resolveBaseUrl context) context config hfn hcn hct hurl
  have hne : mockContentLines feature_name
      (normalizeFeatureName feature_name)
      (pyEraseChar (pyTitle (normalizeFeatureName feature_name)) uscore)
      (resolveBaseUrl context) context config ≠ [] := by
    unfold mockContentLines
    simp
  have hsplit : pySplitNl (_generate_mock_content feature_name context config)
      = mockContentLines feature_name (normalizeFeatureName feature_name)
        (pyEraseChar (pyTitle (normalizeFeatureName feature_name)) uscore)
        (resolveBaseUrl context) context config := by
    show pySplitNl (joinNl (mockContentLines feature_name
      (normalizeFeatureName feature_name)
      (pyEraseChar (pyTitle (normalizeFeatureName feature_name)) uscore)
      (resolveBaseUrl context) context config)) = _
    exact pySplitNl_joinNl (fun s hs c hc => (hsafe s hs).1 c hc) hne
  have hscan : scanFiles (_generate_mock_content feature_name context config)
      = [] := by
    unfold scanFiles
    rw [hsplit, foldl_parseStep_closed (fun l hl => (hsafe l hl).2)]
    rfl
  have hmain : _parse_generated_content
      (_generate_mock_content feature_name context config) feature_name
      context =
      _create_default_test_structure feature_name
        (_generate_mock_content feature_name context config) context := by
    unfold _parse_generated_content
    rw [hscan]
    rfl
  refine ⟨hmain, ?_, ?_⟩
  · rw [hmain]
    unfold _create_default_test_structure
    rfl
  · intro r
    unfold generate_tests
    simp only [Bool.and_false, Bool.false_eq_true, if_false]

/-- Claim C10, witness for the amended theorem: with an ordinary feature
name and url source, the mock path returns the seven skeleton keys. -/
theorem c10_mock_default_skeleton_witness :
    (_parse_generated_content
      (_generate_mock_content "User Login Flow"
        ⟨[], [⟨some "url", some ⟨some "https://ex.com/a", some "T"⟩⟩]⟩
        ⟨some "openai", none, none⟩) "User Login Flow"
      ⟨[], [⟨some "url", some ⟨some "https://ex.com/a", some "T"⟩⟩]⟩).map
      Prod.fst =
      ["pom.xml", "src/test/java/TestRunner.java",
       "src/test/java/pages/BasePage.java",
       "src/test/java/stepdefinitions/user_login_flow_steps.java",
       "src/test/resources/features/user_login_flow.feature",
       "src/test/resources/config.properties", "README.md"] := by
  have h := (c10_mock_default_skeleton "User Login Flow"
    ⟨[], [⟨some "url", some ⟨some "https://ex.com/a", some "T"⟩⟩]⟩
    ⟨some "openai", none, none⟩ (by decide) (by decide)).2.1
  rw [h]
  decide
